import Mathlib

/-!
# WhatsApp bridge servers: session state machine and idempotent dispatcher

A shallow embedding of the two bridge servers of the repository,

* `src/whatsapp-web.js/server.js` (browser-automation client, manual reconnect), and
* `src/@whiskeysocket-baileys/server.js` (protocol-level client, automatic reconnect),

followed by theorems about their session state machine and their `/send` gate.

Modelling conventions.

* The module-level `let` variables of a server are the fields of `State`.
* Every handler is a function from the state before to the state after, together with the
  list of externally visible effects it performed (console lines, backend calls) and, for an
  HTTP handler, the response it sent.
* Everything a handler obtains from outside the two files (the clock, the QR renderer, the
  file system, the chat backend) is read from an `Env` record, one per handled event or
  request. An operation that can throw returns `Except String _`, the string being the
  `message` of the thrown error.
* A handler only writes to the state in stretches of code that contain no `await`, so each
  handler is one atomic step placed at the moment its synchronous writes happen.
-/

namespace WhatsApp

/-! ## Values -/

/-- A scalar value: what the chat backend passes with an event, and what the server puts in
a field of a JSON response. A number is held by the text JavaScript prints for it (the
result of `String(x)`), which identifies a finite double up to the sign of zero. -/
inductive JVal where
  | undefined
  | null
  | bool (b : Bool)
  | num (text : String)
  | str (s : String)
  deriving DecidableEq, Repr

namespace JVal

/-- The string a scalar turns into inside a template literal. -/
def toJsString : JVal → String
  | undefined => "undefined"
  | null => "null"
  | bool true => "true"
  | bool false => "false"
  | num t => t
  | str s => s

/-- The number with the integer value `n`. The server only builds numbers from clock
readings and their differences, which JavaScript prints as their decimal digits. -/
def ofInt (n : Int) : JVal :=
  num (toString n)

end JVal

mutual
/-- A value of a request body as `express.json()` delivers it: a JSON scalar, array or
object, plus `undefined` for a key that is missing. A number is held by the text JavaScript
prints for it, which identifies the double it was parsed to (the text of both zeros is
`0`). An array or object carries in `ref` the identity of the JavaScript object: the parser
builds a new object for every array and object of every request, so two values parsed from
different requests never share a `ref`, even when they were parsed from the same JSON text.
With the identity held in the value, two values of the model are the same JavaScript value
(in the sense of `===` and of `Set.prototype.has`) exactly when they are equal. -/
inductive Json where
  | undefined
  | null
  | bool (b : Bool)
  | num (text : String)
  | str (s : String)
  | arr (ref : Nat) (items : JsonItems)
  | obj (ref : Nat) (fields : JsonFields)
  deriving DecidableEq, Repr
/-- The elements of a JSON array, in order. -/
inductive JsonItems where
  | nil
  | cons (head : Json) (tail : JsonItems)
  deriving DecidableEq, Repr
/-- The members of a JSON object, in order. -/
inductive JsonFields where
  | nil
  | cons (key : String) (value : Json) (tail : JsonFields)
  deriving DecidableEq, Repr
end

/-- Whether the object has an own property named `k`. -/
def JsonFields.hasKey (k : String) : JsonFields → Bool
  | .nil => false
  | .cons key _ tail => key == k || tail.hasKey k

/-- The method call `items.includes(s)` for a string `s` on an array: whether some element
is that string. -/
def JsonItems.includesStr (s : String) : JsonItems → Bool
  | .nil => false
  | .cons (.str x) tail => x == s || tail.includesStr s
  | .cons _ tail => tail.includesStr s

/-- The text of a boolean. -/
def boolText : Bool → String
  | true => "true"
  | false => "false"

/-- The string a parsed JSON object turns into. An own property `toString` holds a JSON
value, which is not callable, so the conversion falls through to `valueOf`, finds no
primitive and throws; without it `Object.prototype.toString` answers. -/
def objectText (fields : JsonFields) : Except String String :=
  if fields.hasKey "toString" then .error "Cannot convert object to primitive value"
  else .ok "[object Object]"

mutual
/-- The method `Array.prototype.join` with the separator `,`, on the elements of an
array. -/
def JsonItems.join : JsonItems → Except String String
  | .nil => .ok ""
  | .cons head tail =>
    match head.itemText, tail.joinMore with
    | .ok a, .ok b => .ok (a ++ b)
    | .error e, _ => .error e
    | .ok _, .error e => .error e
termination_by structural v => v
/-- The rest of a join: every element preceded by the separator. -/
def JsonItems.joinMore : JsonItems → Except String String
  | .nil => .ok ""
  | .cons head tail =>
    match head.itemText, tail.joinMore with
    | .ok a, .ok b => .ok ("," ++ a ++ b)
    | .error e, _ => .error e
    | .ok _, .error e => .error e
termination_by structural v => v
/-- The text of one element inside a join: empty for `null` and `undefined`, else the
string the element turns into. -/
def Json.itemText : Json → Except String String
  | .undefined => .ok ""
  | .null => .ok ""
  | .bool b => .ok (boolText b)
  | .num t => .ok t
  | .str s => .ok s
  | .arr _ items => items.join
  | .obj _ fields => objectText fields
termination_by structural v => v
end

mutual
/-- The value with every identity set to 0: what is left is the JSON text it was parsed
from. -/
def Json.erase : Json → Json
  | .undefined => .undefined
  | .null => .null
  | .bool b => .bool b
  | .num t => .num t
  | .str s => .str s
  | .arr _ items => .arr 0 items.erase
  | .obj _ fields => .obj 0 fields.erase
termination_by structural v => v
/-- The elements with every identity set to 0. -/
def JsonItems.erase : JsonItems → JsonItems
  | .nil => .nil
  | .cons head tail => .cons head.erase tail.erase
termination_by structural v => v
/-- The members with every identity set to 0. -/
def JsonFields.erase : JsonFields → JsonFields
  | .nil => .nil
  | .cons key value tail => .cons key value.erase tail.erase
termination_by structural v => v
end

namespace Json

/-- JavaScript truthiness, the test behind `if (x)`, `!x`, `x ? a : b` and `x || y`. Every
array and every object is truthy. -/
def truthy : Json → Bool
  | undefined => false
  | null => false
  | bool b => b
  | num t => t != "0"
  | str s => s != ""
  | arr _ _ => true
  | obj _ _ => true

/-- The JavaScript expression `a || b`. -/
def orElse (a b : Json) : Json :=
  if a.truthy then a else b

/-- The string a value turns into inside a template literal; the conversion of an object
can throw. -/
def toJsString : Json → Except String String
  | undefined => .ok "undefined"
  | null => .ok "null"
  | bool b => .ok (boolText b)
  | num t => .ok t
  | str s => .ok s
  | arr _ items => items.join
  | obj _ fields => objectText fields

/-- Whether the value is a string. -/
def isStr : Json → Bool
  | str _ => true
  | _ => false

/-- Whether two values were parsed from the same JSON text: they are equal up to the
identities of their arrays and objects. -/
def sameJson (a b : Json) : Bool :=
  decide (a.erase = b.erase)

end Json

/-- Truthiness of an optional string (`undefined` or a string): non-empty strings only. -/
def truthyStr : Option String → Bool
  | some s => s != ""
  | none => false

/-- Truthiness of an optional timestamp (`null` or a number): non-zero numbers only. -/
def truthyTime : Option Nat → Bool
  | some t => t != 0
  | none => false

/-- The JSON rendering of an optional string: `null` or the string. -/
def optStr : Option String → JVal
  | some s => JVal.str s
  | none => JVal.null

/-- Whether `pat` occurs in the character list, scanning from the left. -/
def includesChars (pat : List Char) : List Char → Bool
  | [] => pat.isPrefixOf []
  | c :: cs => pat.isPrefixOf (c :: cs) || includesChars pat cs

/-- The JavaScript method call `s.includes(pat)` on strings. -/
def strIncludes (s pat : String) : Bool :=
  includesChars pat.toList s.toList

/-! ## Effects, responses and the environment -/

/-- The second argument of a backend `sendMessage` call. `text` is the text body
(`{ text: message }` in the Baileys server, the bare `message` in the other);
`document` is the Baileys attachment object; `media` is a `MessageMedia` sent with a
caption option. -/
inductive Payload where
  | text (content : Json)
  | document (data : String) (mimetype : String) (fileName : String) (caption : Json)
  | media (media : String) (caption : Json)
  deriving DecidableEq, Repr

/-- An externally visible action of a handler, in the order performed. -/
inductive Effect where
  | log (line : String)
  | terminalQr (qr : String)
  | evaluate
  | sendMessage (recipient : Json) (p : Payload)
  | isRegisteredUser (chatId : Json)
  | onWhatsApp (jid : String)
  | startWhatsApp
  | initClient
  deriving DecidableEq, Repr

namespace Effect

/-- Whether the effect is a backend send. -/
def isSend : Effect → Bool
  | sendMessage _ _ => true
  | _ => false

/-- Whether the effect is a call into the chat backend (a send or a registration check). -/
def isBackendCall : Effect → Bool
  | sendMessage _ _ => true
  | isRegisteredUser _ => true
  | onWhatsApp _ => true
  | _ => false

/-- Whether the effect starts a backend session: a call of `startWhatsApp` or of
`client.initialize()`. -/
def isStart : Effect → Bool
  | startWhatsApp => true
  | initClient => true
  | _ => false

/-- Whether the effect is a console line. -/
def isLog : Effect → Bool
  | log _ => true
  | _ => false

end Effect

/-- An HTTP response: status code and the fields of the JSON object sent. -/
structure Response where
  status : Nat
  body : List (String × JVal)
  deriving DecidableEq, Repr

/-- The value of a field of the response body, if the body has that field. -/
def Response.field (r : Response) (k : String) : Option JVal :=
  r.body.lookup k

/-- What one handler run reads from outside the server file. -/
structure Env where
  /-- The reading of `Date.now()`. -/
  now : Nat
  /-- The value of `new Date().toISOString()`. -/
  isoTime : String
  /-- The renderer `QRCode.toDataURL`. -/
  toDataURL : String → Except String String
  /-- The outcome of `client.pupPage.evaluate(...)`. -/
  evaluate : Except String Unit
  /-- The file read `fs.readFileSync`. -/
  readFileSync : Json → Except String String
  /-- The path function `path.basename`. -/
  basename : Json → Except String String
  /-- The loader `MessageMedia.fromFilePath`. -/
  fromFilePath : Json → Except String String
  /-- The outcome of a backend `sendMessage(recipient, payload)`. The whatsapp-web.js server
  passes the recipient it computed from `number`, which is a string or, for an array that
  includes `'@c.us'`, the array itself; the Baileys server always passes a string. -/
  sendMessage : Json → Payload → Except String Unit
  /-- The outcome of `client.isRegisteredUser(chatId)`. -/
  isRegisteredUser : Json → Except String Bool
  /-- The outcome of `sock.onWhatsApp(jid)`: a falsy result (`none`) or a result list. -/
  onWhatsApp : String → Except String (Option (List String))

/-! ## State -/

/-- The module-level variables of a server. `initializing` exists in the whatsapp-web.js
server only; the Baileys server leaves it untouched. -/
structure State where
  lastQrBase64 : Option String
  connectionStatus : String
  qrGenerated : Bool
  lastStateChange : Nat
  loadingSince : Option Nat
  loadingPercent : JVal
  loadingMessage : JVal
  initializing : Bool
  processedMessages : List Json
  deriving DecidableEq, Repr

/-- The state when the module has been loaded at time `t0`. -/
def State.initial (t0 : Nat) : State :=
  { lastQrBase64 := none
    connectionStatus := "initializing"
    qrGenerated := false
    lastStateChange := t0
    loadingSince := none
    loadingPercent := JVal.null
    loadingMessage := JVal.null
    initializing := false
    processedMessages := [] }

/-- The method `processedMessages.has(x)`. A `Set` finds `x` when it holds the same value:
the same string, number or boolean, or the same array or object by identity. A value of the
model carries the identity of its arrays and objects, so this is membership; an array
parsed from a later request has a new identity and is not found, whatever it contains. -/
def setHas (l : List Json) (x : Json) : Bool :=
  decide (x ∈ l)

/-- The method `processedMessages.add(x)`: a set keeps one copy, in insertion order. -/
def setAdd (l : List Json) (x : Json) : List Json :=
  if x ∈ l then l else l ++ [x]

/-- The function `setStatus(newStatus)` (same text in both servers). -/
def setStatus (s : State) (newStatus : String) (now : Nat) : State × List Effect :=
  if s.connectionStatus ≠ newStatus then
    ({ s with connectionStatus := newStatus, lastStateChange := now },
      [Effect.log ("SERVER ==> STATUS: " ++ newStatus)])
  else
    (s, [])

/-- The outcome of an event handler: the state after, the effects, and the message of an
exception that left the handler uncaught, if one did. -/
structure Handled where
  state : State
  effects : List Effect
  thrown : Option String
  deriving DecidableEq, Repr

/-! ## Event handlers of the whatsapp-web.js server -/

namespace Web

/-- The handler `client.on('qr', ...)`, lines 47-63. -/
def onQr (env : Env) (s : State) (qr : String) : Handled :=
  let pre := [Effect.log "SERVER ==> QR CODE GENERATED", Effect.terminalQr qr]
  match env.toDataURL qr with
  | .ok url =>
    let r := setStatus { s with lastQrBase64 := some url, qrGenerated := true } "qr" env.now
    ⟨r.1, pre ++ r.2, none⟩
  | .error e =>
    ⟨{ s with lastQrBase64 := none },
      pre ++ [Effect.log ("SERVER ==> QR generation failed: " ++ e)], none⟩

/-- The handler `client.on('authenticated', ...)`, lines 66-71. -/
def onAuthenticated (env : Env) (s : State) : Handled :=
  let r := setStatus { s with lastQrBase64 := none, qrGenerated := false } "authenticated" env.now
  ⟨r.1, Effect.log "SERVER ==> Authenticated successfully" :: r.2, none⟩

/-- The handler `client.on('ready', ...)`, lines 75-92. The `sendSeen` patch runs inside its
own `try`, so either outcome only changes the console line. -/
def onReady (env : Env) (s : State) : Handled :=
  let patch :=
    match env.evaluate with
    | .ok _ => Effect.log "SERVER ==> sendSeen patched"
    | .error _ => Effect.log "SERVER ==> sendSeen patch failed"
  let r := setStatus { s with lastQrBase64 := none, qrGenerated := false, loadingSince := none }
    "ready" env.now
  ⟨r.1, [Effect.log "SERVER ==> WhatsApp READY", Effect.evaluate, patch] ++ r.2, none⟩

/-- The handler `client.on('loading_screen', ...)`, lines 95-101. -/
def onLoadingScreen (env : Env) (s : State) (percent message : JVal) : Handled :=
  let since := if !truthyTime s.loadingSince then some env.now else s.loadingSince
  let r := setStatus
    { s with loadingSince := since, loadingPercent := percent, loadingMessage := message }
    "loading" env.now
  ⟨r.1,
    Effect.log ("SERVER ==> Loading " ++ percent.toJsString ++ "% - " ++ message.toJsString)
      :: r.2,
    none⟩

/-- The handler `client.on('auth_failure', ...)`, lines 104-109. -/
def onAuthFailure (env : Env) (s : State) (msg : JVal) : Handled :=
  let r := setStatus { s with lastQrBase64 := none, qrGenerated := false } "failure" env.now
  ⟨r.1, Effect.log ("SERVER ==> Auth failure: " ++ msg.toJsString) :: r.2, none⟩

/-- The handler `client.on('disconnected', ...)`, lines 112-117. -/
def onDisconnected (env : Env) (s : State) (reason : JVal) : Handled :=
  let r := setStatus { s with lastQrBase64 := none, qrGenerated := false } "disconnected" env.now
  ⟨r.1, Effect.log ("SERVER ==> Disconnected: " ++ reason.toJsString) :: r.2, none⟩

/-- The `setTimeout` callback, lines 231-242, up to the call of `client.initialize()`. -/
def onInitTimer (s : State) : Handled :=
  if s.initializing then
    ⟨s, [], none⟩
  else
    ⟨{ s with initializing := true },
      [Effect.log "SERVER ==> Initializing WhatsApp client...", Effect.initClient], none⟩

/-- The `catch` callback of `client.initialize()`, lines 237-241. -/
def onInitFailed (env : Env) (s : State) (err : String) : Handled :=
  let r := setStatus s "error" env.now
  ⟨{ r.1 with initializing := false },
    Effect.log ("SERVER ==> Initialization failed: " ++ err) :: r.2, none⟩

/-- What the backend and the timer can deliver to the whatsapp-web.js server. -/
inductive Event where
  | qr (qr : String)
  | authenticated
  | ready
  | loading_screen (percent message : JVal)
  | auth_failure (msg : JVal)
  | disconnected (reason : JVal)
  | initTimer
  | initFailed (err : String)
  deriving DecidableEq, Repr

/-- Dispatch of an event to its handler. -/
def handle (env : Env) (s : State) : Event → Handled
  | .qr q => onQr env s q
  | .authenticated => onAuthenticated env s
  | .ready => onReady env s
  | .loading_screen p m => onLoadingScreen env s p m
  | .auth_failure m => onAuthFailure env s m
  | .disconnected r => onDisconnected env s r
  | .initTimer => onInitTimer s
  | .initFailed e => onInitFailed env s e

end Web

/-! ## Event handlers of the Baileys server -/

namespace Baileys

/-- The fields the `connection.update` handler reads from its argument: `connection`, `qr`
and `lastDisconnect?.error?.output?.statusCode`. -/
structure Update where
  connection : Option String
  qr : Option String
  statusCode : Option Nat
  deriving DecidableEq, Repr

/-- The block `if (qr) ...`, lines 51-56. The render is awaited outside any `try`: when it
throws, the assignment does not happen and the exception leaves the handler. -/
def qrBranch (env : Env) (s : State) : Option String → Handled
  | none => ⟨s, [], none⟩
  | some q =>
    if q != "" then
      match env.toDataURL q with
      | .ok url =>
        let r := setStatus { s with lastQrBase64 := some url, qrGenerated := true } "qr" env.now
        ⟨r.1, Effect.log "SERVER ==> QR CODE GENERATED" :: r.2, none⟩
      | .error e => ⟨s, [Effect.log "SERVER ==> QR CODE GENERATED"], some e⟩
    else
      ⟨s, [], none⟩

/-- The block `if (connection === 'open') ...`, lines 58-64. -/
def openBranch (env : Env) (s : State) (connection : Option String) : State × List Effect :=
  if connection = some "open" then
    let r := setStatus { s with lastQrBase64 := none, qrGenerated := false, loadingSince := none }
      "ready" env.now
    (r.1, Effect.log "SERVER ==> WhatsApp READY" :: r.2)
  else
    (s, [])

/-- The text of a disconnect reason on the console. -/
def reasonText : Option Nat → String
  | some n => toString n
  | none => "undefined"

/-- The block `if (connection === 'close') ...`, lines 66-79. `loggedOut` is the constant
`DisconnectReason.loggedOut` of the Baileys library. -/
def closeBranch (loggedOut : Nat) (env : Env) (s : State) (u : Update) : State × List Effect :=
  if u.connection = some "close" then
    let reason := u.statusCode
    let r := setStatus { s with qrGenerated := false, lastQrBase64 := none } "disconnected" env.now
    if reason ≠ some loggedOut then
      (r.1, Effect.log ("SERVER ==> Disconnected: " ++ reasonText reason) :: r.2
        ++ [Effect.startWhatsApp])
    else
      let r2 := setStatus r.1 "logged_out" env.now
      (r2.1, Effect.log ("SERVER ==> Disconnected: " ++ reasonText reason) :: r.2 ++ r2.2)
  else
    (s, [])

/-- The `connection.update` handler, lines 48-80. -/
def onConnectionUpdate (loggedOut : Nat) (env : Env) (s : State) (u : Update) : Handled :=
  let h1 := qrBranch env s u.qr
  match h1.thrown with
  | some e => ⟨h1.state, h1.effects, some e⟩
  | none =>
    let r2 := openBranch env h1.state u.connection
    let r3 := closeBranch loggedOut env r2.1 u
    ⟨r3.1, h1.effects ++ r2.2 ++ r3.2, none⟩

/-- The `catch` callback of the module-level call `startWhatsApp()`, lines 83-86. -/
def onStartFailed (env : Env) (s : State) (err : String) : Handled :=
  let r := setStatus s "error" env.now
  ⟨r.1, Effect.log ("SERVER ==> Initialization failed: " ++ err) :: r.2, none⟩

/-- A rejection of the call `startWhatsApp()` made by the close branch, line 75: that call
has no `catch`, so nothing in the server runs and the rejection stays unhandled. -/
def onReconnectFailed (s : State) (err : String) : Handled :=
  ⟨s, [], some err⟩

/-- What the backend can deliver to the Baileys server. -/
inductive Event where
  | update (u : Update)
  | startFailed (err : String)
  | reconnectFailed (err : String)
  deriving DecidableEq, Repr

/-- Dispatch of an event to its handler. -/
def handle (loggedOut : Nat) (env : Env) (s : State) : Event → Handled
  | .update u => onConnectionUpdate loggedOut env s u
  | .startFailed e => onStartFailed env s e
  | .reconnectFailed e => onReconnectFailed s e

end Baileys

/-! ## HTTP handlers -/

/-- The fields a handler destructures from `req.body`; a missing key reads `undefined`. -/
structure Body where
  messageId : Json := Json.undefined
  number : Json := Json.undefined
  message : Json := Json.undefined
  pdfPath : Json := Json.undefined
  caption : Json := Json.undefined
  deriving DecidableEq, Repr

/-- The outcome of an HTTP handler: the state after, the effects, the response sent. -/
structure Served where
  state : State
  effects : List Effect
  response : Response
  deriving DecidableEq, Repr

/-- The handler of `GET /qr` (same text in both servers). -/
def getQr (env : Env) (s : State) : Response :=
  ⟨200, [("status", JVal.str s.connectionStatus), ("qr", optStr s.lastQrBase64),
    ("timestamp", JVal.str env.isoTime)]⟩

/-- The expression `loadingSince ? Date.now() - loadingSince : 0`. -/
def loadingDuration (now : Nat) (since : Option Nat) : Int :=
  if truthyTime since then (now : Int) - ((since.getD 0 : Nat) : Int) else 0

/-- The handler of `GET /health` (same text in both servers). -/
def getHealth (env : Env) (s : State) : Response :=
  ⟨200, [("whatsappStatus", JVal.str s.connectionStatus),
    ("lastStateChange", JVal.ofInt s.lastStateChange),
    ("loadingDuration", JVal.ofInt (loadingDuration env.now s.loadingSince)),
    ("loadingPercent", s.loadingPercent),
    ("loadingMessage", s.loadingMessage),
    ("qrAvailable", JVal.bool s.qrGenerated),
    ("serverTime", JVal.str env.isoTime)]⟩

/-- The response `400 { error: 'WhatsApp is not ready' }` of `/send`. -/
def notReady : Response :=
  ⟨400, [("error", JVal.str "WhatsApp is not ready")]⟩

/-- The response `400 { error: 'WhatsApp is not ready', currentStatus }` of `/check-number`. -/
def notReadyWithStatus (s : State) : Response :=
  ⟨400, [("error", JVal.str "WhatsApp is not ready"),
    ("currentStatus", JVal.str s.connectionStatus)]⟩

/-- The response `400 { error: 'MessageID is required' }`. -/
def messageIdRequired : Response :=
  ⟨400, [("error", JVal.str "MessageID is required")]⟩

/-- The response `400 { error: 'Phone number is required' }`. -/
def numberRequired : Response :=
  ⟨400, [("error", JVal.str "Phone number is required")]⟩

/-- The response `200 { success: true, duplicate: true }`. -/
def duplicate : Response :=
  ⟨200, [("success", JVal.bool true), ("duplicate", JVal.bool true)]⟩

/-- The response `200 { success: true }`. -/
def success : Response :=
  ⟨200, [("success", JVal.bool true)]⟩

/-- The response `500 { error: err.message }`. -/
def sendFailed (e : String) : Response :=
  ⟨500, [("error", JVal.str e)]⟩

/-- The response `200 { registered: true }`. -/
def registered : Response :=
  ⟨200, [("registered", JVal.bool true)]⟩

/-- The response `404 { registered: false, error: 'Number does not have WhatsApp' }`. -/
def notRegistered : Response :=
  ⟨404, [("registered", JVal.bool false), ("error", JVal.str "Number does not have WhatsApp")]⟩

/-- The response `500 { error: 'Unable to verify number' }`. -/
def unableToVerify : Response :=
  ⟨500, [("error", JVal.str "Unable to verify number")]⟩

/-- The synchronous head of the `/send` handler, up to and including the recipient check
(whatsapp-web.js lines 179-202, Baileys lines 141-158; same text in both). It returns the
state after and the response sent, or no response when the handler goes on to the sends. -/
def sendGate (s : State) (b : Body) : State × Option Response :=
  if s.connectionStatus ≠ "ready" then
    (s, some notReady)
  else if !b.messageId.truthy then
    (s, some messageIdRequired)
  else if setHas s.processedMessages b.messageId then
    (s, some duplicate)
  else
    let s1 := { s with processedMessages := setAdd s.processedMessages b.messageId }
    if !b.number.truthy then
      (s1, some numberRequired)
    else
      (s1, none)

/-- The end of the `/send` handler: the success response, or the `catch` block. -/
def sendReply (s : State) (r : List Effect × Except String Unit) : Served :=
  match r.2 with
  | .ok _ => ⟨s, r.1, success⟩
  | .error e => ⟨s, r.1 ++ [Effect.log ("SERVER ==> Send Error: " ++ e)], sendFailed e⟩

namespace Web

/-- The expression `` number.includes('@c.us') ? number : `${number}@c.us` `` of lines 155
and 204. A string has `String.prototype.includes`, a substring test. An array has
`Array.prototype.includes`, an element test: when some element is the string `'@c.us'` the
array itself is the recipient, and otherwise the template literal joins its elements,
which can throw. No other value has a callable `includes`, a parsed object neither (an own
property named `includes` holds a JSON value), so the call throws. -/
def chatIdOf : Json → Except String Json
  | .str n => .ok (if strIncludes n "@c.us" then Json.str n else Json.str (n ++ "@c.us"))
  | .arr ref items =>
    if items.includesStr "@c.us" then
      .ok (Json.arr ref items)
    else
      match items.join with
      | .ok t => .ok (Json.str (t ++ "@c.us"))
      | .error e => .error e
  | .undefined => .error "Cannot read properties of undefined (reading 'includes')"
  | .null => .error "Cannot read properties of null (reading 'includes')"
  | _ => .error "number.includes is not a function"

/-- The block `if (message) ...`, lines 206-208. -/
def textStep (env : Env) (chatId : Json) (message : Json) :
    List Effect × Except String Unit :=
  if message.truthy then
    ([Effect.sendMessage chatId (Payload.text message)],
      env.sendMessage chatId (Payload.text message))
  else
    ([], .ok ())

/-- The attachment of lines 211-214: the media loaded from `pdfPath`, with the caption
`caption || ''`. Loading happens before the send is called, and may throw. -/
def attachment (env : Env) (pdfPath caption : Json) : Except String Payload :=
  match env.fromFilePath pdfPath with
  | .error e => .error e
  | .ok media => .ok (Payload.media media (caption.orElse (Json.str "")))

/-- The block `if (pdfPath) ...`, lines 210-215. -/
def mediaStep (env : Env) (chatId : Json) (pdfPath caption : Json) :
    List Effect × Except String Unit :=
  if pdfPath.truthy then
    match attachment env pdfPath caption with
    | .error e => ([], .error e)
    | .ok p => ([Effect.sendMessage chatId p], env.sendMessage chatId p)
  else
    ([], .ok ())

/-- The sends of the `/send` handler, lines 204-215: the effects performed and whether the
block completed or threw. -/
def dispatch (env : Env) (b : Body) : List Effect × Except String Unit :=
  match chatIdOf b.number with
  | .error e => ([], .error e)
  | .ok chatId =>
    let t := textStep env chatId b.message
    match t.2 with
    | .error e => (t.1, .error e)
    | .ok _ =>
      let d := mediaStep env chatId b.pdfPath b.caption
      (t.1 ++ d.1, d.2)

/-- The handler of `POST /send`, lines 177-225. -/
def send (env : Env) (s : State) (b : Body) : Served :=
  match sendGate s b with
  | (s1, some r) => ⟨s1, [], r⟩
  | (s1, none) => sendReply s1 (dispatch env b)

/-- The handler of `POST /check-number`, lines 141-173. -/
def checkNumber (env : Env) (s : State) (b : Body) : Served :=
  if s.connectionStatus ≠ "ready" then
    ⟨s, [], notReadyWithStatus s⟩
  else if !b.number.truthy then
    ⟨s, [], numberRequired⟩
  else
    match chatIdOf b.number with
    | .error _ => ⟨s, [], unableToVerify⟩
    | .ok chatId =>
      match env.isRegisteredUser chatId with
      | .error _ => ⟨s, [Effect.isRegisteredUser chatId], unableToVerify⟩
      | .ok isRegistered =>
        if !isRegistered then
          ⟨s, [Effect.isRegisteredUser chatId], notRegistered⟩
        else
          ⟨s, [Effect.isRegisteredUser chatId], registered⟩

end Web

namespace Baileys

/-- The template literal `` `${number}@s.whatsapp.net` `` of lines 123 and 160; turning
`number` into a string can throw. -/
def jidOf (number : Json) : Except String String :=
  match number.toJsString with
  | .ok t => .ok (t ++ "@s.whatsapp.net")
  | .error e => .error e

/-- The block `if (message) ...`, lines 162-164. -/
def textStep (env : Env) (jid : String) (message : Json) :
    List Effect × Except String Unit :=
  if message.truthy then
    ([Effect.sendMessage (Json.str jid) (Payload.text message)],
      env.sendMessage (Json.str jid) (Payload.text message))
  else
    ([], .ok ())

/-- The attachment of lines 167-175: the file is read (into the unused `fileBuffer`), its
base name is taken, and the file is read again for the `document` field of the object
passed to the send, whose caption is `caption || ''`. All of this happens before the send
is called, and each part may throw. -/
def attachment (env : Env) (pdfPath caption : Json) : Except String Payload :=
  match env.readFileSync pdfPath with
  | .error e => .error e
  | .ok _ =>
    match env.basename pdfPath with
    | .error e => .error e
    | .ok fileName =>
      match env.readFileSync pdfPath with
      | .error e => .error e
      | .ok data =>
        .ok (Payload.document data "application/pdf" fileName (caption.orElse (Json.str "")))

/-- The block `if (pdfPath) ...`, lines 166-184. -/
def documentStep (env : Env) (jid : String) (pdfPath caption : Json) :
    List Effect × Except String Unit :=
  if pdfPath.truthy then
    match attachment env pdfPath caption with
    | .error e => ([], .error e)
    | .ok p => ([Effect.sendMessage (Json.str jid) p], env.sendMessage (Json.str jid) p)
  else
    ([], .ok ())

/-- The sends of the `/send` handler, lines 160-184. -/
def dispatch (env : Env) (b : Body) : List Effect × Except String Unit :=
  match jidOf b.number with
  | .error e => ([], .error e)
  | .ok jid =>
    let t := textStep env jid b.message
    match t.2 with
    | .error e => (t.1, .error e)
    | .ok _ =>
      let d := documentStep env jid b.pdfPath b.caption
      (t.1 ++ d.1, d.2)

/-- The handler of `POST /send`, lines 140-192. -/
def send (env : Env) (s : State) (b : Body) : Served :=
  match sendGate s b with
  | (s1, some r) => ⟨s1, [], r⟩
  | (s1, none) => sendReply s1 (dispatch env b)

/-- The handler of `POST /check-number`, lines 111-137. -/
def checkNumber (env : Env) (s : State) (b : Body) : Served :=
  if s.connectionStatus ≠ "ready" then
    ⟨s, [], notReadyWithStatus s⟩
  else if !b.number.truthy then
    ⟨s, [], numberRequired⟩
  else
    match jidOf b.number with
    | .error _ => ⟨s, [], unableToVerify⟩
    | .ok jid =>
      match env.onWhatsApp jid with
      | .error _ => ⟨s, [Effect.onWhatsApp jid], unableToVerify⟩
      | .ok none => ⟨s, [Effect.onWhatsApp jid], notRegistered⟩
      | .ok (some result) =>
        if result.length = 0 then
          ⟨s, [Effect.onWhatsApp jid], notRegistered⟩
        else
          ⟨s, [Effect.onWhatsApp jid], registered⟩

end Baileys

/-! ## Runs -/

/-- An HTTP request to one of the four routes. -/
inductive Request where
  | getQr
  | getHealth
  | checkNumber (b : Body)
  | send (b : Body)
  deriving DecidableEq, Repr

/-- One thing a server handles: a backend event or an HTTP request. -/
inductive Input (E : Type) where
  | event (e : E)
  | request (r : Request)
  deriving DecidableEq, Repr

/-- The outcome of handling one input. -/
structure Outcome where
  state : State
  effects : List Effect
  response : Option Response
  thrown : Option String
  deriving DecidableEq, Repr

namespace Web

/-- Handling of one request. -/
def serve (env : Env) (s : State) : Request → Served
  | .getQr => ⟨s, [], getQr env s⟩
  | .getHealth => ⟨s, [], getHealth env s⟩
  | .checkNumber b => checkNumber env s b
  | .send b => send env s b

/-- Handling of one input. -/
def step (env : Env) (s : State) : Input Event → Outcome
  | .event e => let h := handle env s e; ⟨h.state, h.effects, none, h.thrown⟩
  | .request r => let v := serve env s r; ⟨v.state, v.effects, some v.response, none⟩

/-- The state after handling the inputs one after another, each in its own environment. -/
def run (s : State) : List (Env × Input Event) → State
  | [] => s
  | (env, i) :: rest => run (step env s i).state rest

/-- The outcomes of handling the inputs one after another. -/
def outcomes (s : State) : List (Env × Input Event) → List Outcome
  | [] => []
  | (env, i) :: rest => step env s i :: outcomes (step env s i).state rest

end Web

namespace Baileys

/-- Handling of one request. -/
def serve (env : Env) (s : State) : Request → Served
  | .getQr => ⟨s, [], getQr env s⟩
  | .getHealth => ⟨s, [], getHealth env s⟩
  | .checkNumber b => checkNumber env s b
  | .send b => send env s b

/-- Handling of one input. -/
def step (loggedOut : Nat) (env : Env) (s : State) : Input Event → Outcome
  | .event e => let h := handle loggedOut env s e; ⟨h.state, h.effects, none, h.thrown⟩
  | .request r => let v := serve env s r; ⟨v.state, v.effects, some v.response, none⟩

/-- The state after handling the inputs one after another, each in its own environment. -/
def run (loggedOut : Nat) (s : State) : List (Env × Input Event) → State
  | [] => s
  | (env, i) :: rest => run loggedOut (step loggedOut env s i).state rest

/-- The outcomes of handling the inputs one after another. -/
def outcomes (loggedOut : Nat) (s : State) : List (Env × Input Event) → List Outcome
  | [] => []
  | (env, i) :: rest =>
    step loggedOut env s i :: outcomes loggedOut (step loggedOut env s i).state rest

end Baileys

/-! ## Sample environments and states -/

/-- An environment in which every outside operation succeeds. -/
def Env.sample : Env :=
  { now := 1000
    isoTime := "2024-01-01T00:00:01.000Z"
    toDataURL := fun q => .ok ("data:image/png;base64," ++ q)
    evaluate := .ok ()
    readFileSync := fun _ => .ok "%PDF"
    basename := fun _ => .ok "a.pdf"
    fromFilePath := fun _ => .ok "media"
    sendMessage := fun _ _ => .ok ()
    isRegisteredUser := fun _ => .ok true
    onWhatsApp := fun _ => .ok (some ["jid"]) }

/-- An environment in which the renderer and every backend call throw. -/
def Env.failing : Env :=
  { Env.sample with
    toDataURL := fun _ => .error "render failed"
    sendMessage := fun _ _ => .error "send failed"
    isRegisteredUser := fun _ => .error "lookup failed"
    onWhatsApp := fun _ => .error "lookup failed" }

/-- A state in which the session is ready and nothing has been sent. -/
def State.ready : State :=
  { State.initial 0 with connectionStatus := "ready", lastStateChange := 500 }

/-- The request `{ messageId: "m1", number: "15551234567", message: "hi" }`. -/
def Body.hi : Body :=
  { messageId := Json.str "m1", number := Json.str "15551234567", message := Json.str "hi" }

/-- A run of the whatsapp-web.js server: the session drops and becomes ready again. -/
def Web.sampleRun : List (Env × Input Web.Event) :=
  [(Env.sample, Input.event (Web.Event.disconnected (JVal.str "NAVIGATION"))),
    (Env.sample, Input.request Request.getHealth),
    (Env.sample, Input.event Web.Event.ready)]

/-- A run of the Baileys server: the connection closes and opens again. -/
def Baileys.sampleRun : List (Env × Input Baileys.Event) :=
  [(Env.sample, Input.event (Baileys.Event.update ⟨some "close", none, some 428⟩)),
    (Env.sample, Input.request Request.getHealth),
    (Env.sample, Input.event (Baileys.Event.update ⟨some "open", none, none⟩))]

/-- The request `m2` whose recipient is the JSON number 15551234567. -/
def Body.numeric : Body :=
  { messageId := Json.str "m2", number := Json.num "15551234567", message := Json.str "hi" }

/-- The request `m3` with a text body, an attachment and no caption. -/
def Body.withPdf : Body :=
  { messageId := Json.str "m3", number := Json.str "15551234567", message := Json.str "hi",
    pdfPath := Json.str "/tmp/a.pdf" }

/-- A state in which a pairing code is on display. -/
def State.pairing : State :=
  { State.initial 0 with
    connectionStatus := "qr", lastQrBase64 := some "data:image/png;base64,AAAA",
    qrGenerated := true, lastStateChange := 200 }

/-- A `close` update of the Baileys server with the reason 428 (connection closed). -/
def Baileys.Update.closed : Baileys.Update :=
  ⟨some "close", none, some 428⟩

/-- A `close` update of the Baileys server with the reason 401 (logged out). -/
def Baileys.Update.loggedOut : Baileys.Update :=
  ⟨some "close", none, some 401⟩

/-- A run of the whatsapp-web.js server: a pairing code is rendered, then the loading
screen is reported. -/
def Web.pairThenLoad : List (Env × Input Web.Event) :=
  [(Env.sample, Input.event (Web.Event.qr "2@abc")),
    (Env.sample, Input.event (Web.Event.loading_screen (JVal.num "50") (JVal.str "WhatsApp")))]

/-- A run of the whatsapp-web.js server: a pairing code is rendered, then the rendering of
the next pairing code throws. -/
def Web.pairThenRenderFails : List (Env × Input Web.Event) :=
  [(Env.sample, Input.event (Web.Event.qr "2@abc")),
    (Env.failing, Input.event (Web.Event.qr "2@def"))]

/-- A run of the Baileys server: a pairing code arrives and is polled, then the connection
opens. -/
def Baileys.pairThenOpen : List (Env × Input Baileys.Event) :=
  [(Env.sample, Input.event (Baileys.Event.update ⟨none, some "2@abc", none⟩)),
    (Env.sample, Input.request Request.getQr),
    (Env.sample, Input.event (Baileys.Event.update ⟨some "open", none, none⟩))]

/-- The sample environment read at a later time. -/
def Env.later : Env :=
  { Env.sample with now := 2500, isoTime := "2024-01-01T00:00:02.500Z" }

/-- A run of the whatsapp-web.js server: the loading screen is reported, then the session is
ready. -/
def Web.loadThenReady : List (Env × Input Web.Event) :=
  [(Env.sample, Input.event (Web.Event.loading_screen (JVal.num "50") (JVal.str "WhatsApp"))),
    (Env.sample, Input.event Web.Event.ready)]

/-- A run of the whatsapp-web.js server: the loading screen is reported, then the session is
authenticated. -/
def Web.loadThenAuthenticated : List (Env × Input Web.Event) :=
  [(Env.sample, Input.event (Web.Event.loading_screen (JVal.num "50") (JVal.str "WhatsApp"))),
    (Env.sample, Input.event Web.Event.authenticated)]

/-- An update of the Baileys server that carries a pairing code and nothing else. -/
def Baileys.Update.pairing : Baileys.Update :=
  ⟨none, some "2@def", none⟩

/-- A run of the Baileys server: the connection closes with reason 428, which starts a
reconnect, and the `startWhatsApp()` of that reconnect fails. -/
def Baileys.closeThenReconnectFails : List (Env × Input Baileys.Event) :=
  [(Env.sample, Input.event (Baileys.Event.update Baileys.Update.closed)),
    (Env.sample, Input.event (Baileys.Event.reconnectFailed "auth state unreadable"))]

/-- The request whose messageId is the JSON array `["m8"]`, as parsed from a first
request. -/
def Body.listId : Body :=
  { messageId := Json.arr 1 (JsonItems.cons (Json.str "m8") JsonItems.nil),
    number := Json.str "15551234567", message := Json.str "hi" }

/-- The same request sent again: the same JSON text, parsed into a new array. -/
def Body.listIdAgain : Body :=
  { messageId := Json.arr 2 (JsonItems.cons (Json.str "m8") JsonItems.nil),
    number := Json.str "15551234567", message := Json.str "hi" }

/-- The request whose messageId is the JSON object with the member `id: "m9"`, as parsed
from a first request. -/
def Body.objectId : Body :=
  { messageId := Json.obj 3 (JsonFields.cons "id" (Json.str "m9") JsonFields.nil),
    number := Json.str "15551234567", message := Json.str "hi" }

/-- The same request sent again: the same JSON text, parsed into a new object. -/
def Body.objectIdAgain : Body :=
  { messageId := Json.obj 4 (JsonFields.cons "id" (Json.str "m9") JsonFields.nil),
    number := Json.str "15551234567", message := Json.str "hi" }

/-- The request whose messageId is the JSON array `["m10"]`, without recipient. -/
def Body.listIdNoNumber : Body :=
  { messageId := Json.arr 5 (JsonItems.cons (Json.str "m10") JsonItems.nil),
    message := Json.str "hi" }

/-- The retry of that request with a recipient: the same messageId text, parsed into a new
array. -/
def Body.listIdRetry : Body :=
  { messageId := Json.arr 6 (JsonItems.cons (Json.str "m10") JsonItems.nil),
    number := Json.str "15551234567", message := Json.str "hi" }

/-- The request `m4` with a text body and no recipient. -/
def Body.noNumber : Body :=
  { messageId := Json.str "m4", message := Json.str "hi" }

/-- The request `m4` again, now with a recipient. -/
def Body.retry : Body :=
  { messageId := Json.str "m4", number := Json.str "15551234567", message := Json.str "hi" }

/-! ## Properties of states and runs -/

/-- The pairing artifact is cleared outside pairing: when the status is `ready`,
`authenticated`, `disconnected` or `logged_out`, `lastQrBase64` is null and `qrGenerated`
is false. -/
def ClearedOutsidePairing (s : State) : Prop :=
  s.connectionStatus ∈ ["ready", "authenticated", "disconnected", "logged_out"] →
    s.lastQrBase64 = none ∧ s.qrGenerated = false

/-- Whether the input is a pairing event of the whatsapp-web.js server whose rendering
throws. -/
def Web.renderFails : Env × Input Web.Event → Bool
  | (env, Input.event (Web.Event.qr q)) =>
    (match env.toDataURL q with
      | .ok _ => false
      | .error _ => true)
  | _ => false

/-- Whether the input is a connection update of the Baileys server. -/
def Baileys.isUpdate : Env × Input Baileys.Event → Bool
  | (_, Input.event (Baileys.Event.update _)) => true
  | _ => false

/-- Whether the input is the failure of the first `startWhatsApp()` of the Baileys server. -/
def Baileys.isStartFailed : Env × Input Baileys.Event → Bool
  | (_, Input.event (Baileys.Event.startFailed _)) => true
  | _ => false

/-- The runs the Baileys server can have. `startWhatsApp` registers the `connection.update`
handler in its last statement, so when the first call fails no update is ever handled; and
the `catch` that sets the status `error` is attached to the first call only. A run
therefore holds no start failure, or no connection update. -/
def Baileys.startFailsAlone (trace : List (Env × Input Baileys.Event)) : Bool :=
  trace.all (fun x => !Baileys.isStartFailed x) || trace.all (fun x => !Baileys.isUpdate x)

/-- The arguments of the last `loading_screen` event of a run of the whatsapp-web.js
server, or `init` when the run has none. -/
def Web.lastLoading (init : JVal × JVal) : List (Env × Input Web.Event) → JVal × JVal
  | [] => init
  | (_, Input.event (Web.Event.loading_screen p m)) :: rest => Web.lastLoading (p, m) rest
  | _ :: rest => Web.lastLoading init rest

/-- Whether the input is the ready event of the whatsapp-web.js server. -/
def Web.isReady : Env × Input Web.Event → Bool
  | (_, Input.event Web.Event.ready) => true
  | _ => false

/-! ## Backends that behave alike -/

/-- What the `/check-number` handler of the whatsapp-web.js server learns from its backend
about the address `chatId`: nothing when the check throws, else whether the number is
registered. -/
def Web.lookup (env : Env) (chatId : Json) : Option Bool :=
  match env.isRegisteredUser chatId with
  | .ok r => some r
  | .error _ => none

/-- What the `/check-number` handler of the Baileys server learns from its backend about the
address `jid`: nothing when the check throws, else whether the result is a non-empty list. -/
def Baileys.lookup (env : Env) (jid : String) : Option Bool :=
  match env.onWhatsApp jid with
  | .ok (some l) => some (l.length != 0)
  | .ok none => some false
  | .error _ => none

/-- The two backends succeed or fail alike on the request `b`, the whatsapp-web.js backend
being addressed as `chatId` and the Baileys backend as `jid`: the registration checks
report the same, the text sends have the same outcome (with the same error message),
preparing the attachment throws in one server exactly when it throws in the other (with
the same message), and the attachment sends have the same outcome. -/
def BackendsAlike (env : Env) (b : Body) (chatId : Json) (jid : String) : Prop :=
  Web.lookup env chatId = Baileys.lookup env jid ∧
  env.sendMessage chatId (Payload.text b.message)
    = env.sendMessage (Json.str jid) (Payload.text b.message) ∧
  (∀ e : String, Web.attachment env b.pdfPath b.caption = .error e ↔
    Baileys.attachment env b.pdfPath b.caption = .error e) ∧
  (∀ pW pB : Payload, Web.attachment env b.pdfPath b.caption = .ok pW →
    Baileys.attachment env b.pdfPath b.caption = .ok pB →
    env.sendMessage chatId pW = env.sendMessage (Json.str jid) pB)

/-! ## The send sequence in the words of the spec -/

/-- The send sequence and result that the spec describes for a `/send` request that passed
the gate, stated about the outcome `r` of a handler: `rcpt` is the address the sends go to
and `att` the outcome of preparing the attachment from `pdfPath` and `caption`. The backend
sends are, in order, the text send when `message` is present, then the attachment send when
`pdfPath` is present. A text send that throws ends the sequence with a 500 carrying its
message. Otherwise: with no `pdfPath` the response is `200 success`; when preparing the
attachment throws, no attachment send is made and the response is a 500 carrying that
message; when the attachment is prepared, it is sent, and the response is `200 success`
or, when that send throws, a 500 carrying its message. -/
def SendsInOrder (env : Env) (rcpt : Json) (b : Body) (att : Except String Payload)
    (r : Served) : Prop :=
  (∀ e : String, b.message.truthy = true →
    env.sendMessage rcpt (Payload.text b.message) = .error e →
    r.effects.filter Effect.isSend = [Effect.sendMessage rcpt (Payload.text b.message)] ∧
    r.response = sendFailed e) ∧
  ((b.message.truthy = false ∨ env.sendMessage rcpt (Payload.text b.message) = .ok ()) →
    (b.pdfPath.truthy = false →
      r.effects.filter Effect.isSend =
        (if b.message.truthy then [Effect.sendMessage rcpt (Payload.text b.message)] else []) ∧
      r.response = success) ∧
    (∀ e : String, b.pdfPath.truthy = true → att = .error e →
      r.effects.filter Effect.isSend =
        (if b.message.truthy then [Effect.sendMessage rcpt (Payload.text b.message)] else []) ∧
      r.response = sendFailed e) ∧
    (∀ doc : Payload, b.pdfPath.truthy = true → att = .ok doc →
      r.effects.filter Effect.isSend =
        (if b.message.truthy then [Effect.sendMessage rcpt (Payload.text b.message)] else [])
          ++ [Effect.sendMessage rcpt doc] ∧
      r.response =
        (match env.sendMessage rcpt doc with
          | .ok _ => success
          | .error e => sendFailed e)))

/-! ## Basic facts about `setStatus` -/

@[simp] theorem setStatus_connectionStatus (s : State) (st : String) (t : Nat) :
    (setStatus s st t).1.connectionStatus = st := by
  unfold setStatus
  split
  · rfl
  · rename_i h
    simpa using h

@[simp] theorem setStatus_lastQrBase64 (s : State) (st : String) (t : Nat) :
    (setStatus s st t).1.lastQrBase64 = s.lastQrBase64 := by
  unfold setStatus
  split <;> rfl

@[simp] theorem setStatus_qrGenerated (s : State) (st : String) (t : Nat) :
    (setStatus s st t).1.qrGenerated = s.qrGenerated := by
  unfold setStatus
  split <;> rfl

@[simp] theorem setStatus_loadingSince (s : State) (st : String) (t : Nat) :
    (setStatus s st t).1.loadingSince = s.loadingSince := by
  unfold setStatus
  split <;> rfl

@[simp] theorem setStatus_loadingPercent (s : State) (st : String) (t : Nat) :
    (setStatus s st t).1.loadingPercent = s.loadingPercent := by
  unfold setStatus
  split <;> rfl

@[simp] theorem setStatus_loadingMessage (s : State) (st : String) (t : Nat) :
    (setStatus s st t).1.loadingMessage = s.loadingMessage := by
  unfold setStatus
  split <;> rfl

@[simp] theorem setStatus_processedMessages (s : State) (st : String) (t : Nat) :
    (setStatus s st t).1.processedMessages = s.processedMessages := by
  unfold setStatus
  split <;> rfl

theorem setStatus_effects_not_start (s : State) (st : String) (t : Nat) :
    ∀ e ∈ (setStatus s st t).2, e.isStart = false ∧ e.isBackendCall = false := by
  unfold setStatus
  split <;> simp [Effect.isStart, Effect.isBackendCall]

/-! ## C8: `setStatus` on a repeated identical status -/

/-- C8. `setStatus` is idempotent on a repeated identical status. When the current status
already equals `st`, `setStatus(st)` returns the state unchanged (so neither
`connectionStatus` nor `lastStateChange` moves) and emits nothing; when it differs, the
status becomes `st`, `lastStateChange` becomes the current time, nothing else changes and
exactly one line is logged. A second `setStatus(st)`, at any later time `t2`, leaves the
state of the first call untouched and logs nothing. -/
theorem setStatus_repeat_is_noop (s : State) (st : String) (t1 t2 : Nat) :
    (s.connectionStatus = st → setStatus s st t1 = (s, [])) ∧
    (s.connectionStatus ≠ st →
      setStatus s st t1 =
        ({ s with connectionStatus := st, lastStateChange := t1 },
          [Effect.log ("SERVER ==> STATUS: " ++ st)])) ∧
    setStatus (setStatus s st t1).1 st t2 = ((setStatus s st t1).1, []) := by
  refine ⟨?_, ?_, ?_⟩
  · intro h
    simp [setStatus, h]
  · intro h
    simp [setStatus, h]
  · have h : (setStatus s st t1).1.connectionStatus = st := setStatus_connectionStatus s st t1
    generalize setStatus s st t1 = r at h
    simp [setStatus, h]

/-! ## The `/send` gate -/

theorem sendGate_not_ready (s : State) (b : Body) (h : s.connectionStatus ≠ "ready") :
    sendGate s b = (s, some notReady) := by
  simp [sendGate, h]

theorem sendGate_no_messageId (s : State) (b : Body) (h : s.connectionStatus = "ready")
    (hm : b.messageId.truthy = false) : sendGate s b = (s, some messageIdRequired) := by
  simp [sendGate, h, hm]

theorem sendGate_duplicate (s : State) (b : Body) (h : s.connectionStatus = "ready")
    (hm : b.messageId.truthy = true) (hp : b.messageId ∈ s.processedMessages) :
    sendGate s b = (s, some duplicate) := by
  simp [sendGate, h, hm, setHas, hp]

theorem sendGate_no_number (s : State) (b : Body) (h : s.connectionStatus = "ready")
    (hm : b.messageId.truthy = true) (hp : b.messageId ∉ s.processedMessages)
    (hn : b.number.truthy = false) :
    sendGate s b =
      ({ s with processedMessages := setAdd s.processedMessages b.messageId },
        some numberRequired) := by
  simp [sendGate, h, hm, setHas, hp, hn]

theorem sendGate_proceed (s : State) (b : Body) (h : s.connectionStatus = "ready")
    (hm : b.messageId.truthy = true) (hp : b.messageId ∉ s.processedMessages)
    (hn : b.number.truthy = true) :
    sendGate s b =
      ({ s with processedMessages := setAdd s.processedMessages b.messageId }, none) := by
  simp [sendGate, h, hm, setHas, hp, hn]

theorem mem_setAdd (l : List Json) (x : Json) : x ∈ setAdd l x := by
  unfold setAdd
  split
  · assumption
  · simp

theorem subset_setAdd (l : List Json) (x y : Json) (h : y ∈ l) : y ∈ setAdd l x := by
  unfold setAdd
  split
  · exact h
  · simp [h]

/-! ## C2: order of the precondition checks of `/send` -/

/-- C2. The `/send` handler of either server answers according to the first failing check, in
the order ready, messageId present, messageId already processed, recipient present, where a
field counts as absent when the handler's own test `!field` holds (a missing key, `null`,
`false`, `0` or the empty string). For every state, environment and body: (1) when the
status is not `ready` the response is `400 WhatsApp is not ready`, whatever the body holds;
(2) otherwise, when messageId is absent, it is `400 MessageID is required`, whatever
`number` holds; (3) otherwise, when messageId is in `processedMessages`, it is
`200 success, duplicate`, whatever `number` holds; (4) otherwise, when `number` is absent,
it is `400 Phone number is required`. In all four cases no effect is performed. -/
theorem send_answers_first_failing_check (env : Env) (s : State) (b : Body) :
    (s.connectionStatus ≠ "ready" →
      Web.send env s b = ⟨s, [], notReady⟩ ∧ Baileys.send env s b = ⟨s, [], notReady⟩) ∧
    (s.connectionStatus = "ready" → b.messageId.truthy = false →
      Web.send env s b = ⟨s, [], messageIdRequired⟩ ∧
      Baileys.send env s b = ⟨s, [], messageIdRequired⟩) ∧
    (s.connectionStatus = "ready" → b.messageId.truthy = true →
      b.messageId ∈ s.processedMessages →
      Web.send env s b = ⟨s, [], duplicate⟩ ∧ Baileys.send env s b = ⟨s, [], duplicate⟩) ∧
    (s.connectionStatus = "ready" → b.messageId.truthy = true →
      b.messageId ∉ s.processedMessages → b.number.truthy = false →
      (Web.send env s b).response = numberRequired ∧ (Web.send env s b).effects = [] ∧
      (Baileys.send env s b).response = numberRequired ∧
      (Baileys.send env s b).effects = []) := by
  refine ⟨?_, ?_, ?_, ?_⟩
  · intro h
    simp [Web.send, Baileys.send, sendGate_not_ready s b h]
  · intro h hm
    simp [Web.send, Baileys.send, sendGate_no_messageId s b h hm]
  · intro h hm hp
    simp [Web.send, Baileys.send, sendGate_duplicate s b h hm hp]
  · intro h hm hp hn
    simp [Web.send, Baileys.send, sendGate_no_number s b h hm hp hn]

/-! ## C4: readiness gating -/

/-- C4, as stated, fails for `/send`: in the initial state (status `initializing`) the
response of `/send` is `400 WhatsApp is not ready` in both servers, and its body has no
`currentStatus` field. -/
theorem send_not_ready_omits_currentStatus :
    (State.initial 0).connectionStatus ≠ "ready" ∧
    (Web.send Env.sample (State.initial 0) Body.hi).response.status = 400 ∧
    (Web.send Env.sample (State.initial 0) Body.hi).response.field "currentStatus" = none ∧
    (Baileys.send Env.sample (State.initial 0) Body.hi).response.status = 400 ∧
    (Baileys.send Env.sample (State.initial 0) Body.hi).response.field "currentStatus"
      = none := by
  decide

/-- C4, amended. For every state whose status is not `ready`, every environment and every
request body, in both servers: `/check-number` responds 400 with the body
`error: 'WhatsApp is not ready', currentStatus: <the current status>`; `/send` responds 400
with the body `error: 'WhatsApp is not ready'` alone, which has no `currentStatus` field;
and neither handler performs any effect (so no backend call) or changes the state. -/
theorem not_ready_requests_are_rejected (env : Env) (s : State) (b : Body)
    (h : s.connectionStatus ≠ "ready") :
    (Web.checkNumber env s b = ⟨s, [], notReadyWithStatus s⟩ ∧
      Baileys.checkNumber env s b = ⟨s, [], notReadyWithStatus s⟩ ∧
      (notReadyWithStatus s).status = 400 ∧
      (notReadyWithStatus s).field "currentStatus" = some (JVal.str s.connectionStatus)) ∧
    (Web.send env s b = ⟨s, [], notReady⟩ ∧ Baileys.send env s b = ⟨s, [], notReady⟩ ∧
      notReady.status = 400 ∧ notReady.field "currentStatus" = none ∧
      notReady.field "error" = some (JVal.str "WhatsApp is not ready")) := by
  refine ⟨⟨?_, ?_, rfl, ?_⟩, ?_, ?_, rfl, ?_, ?_⟩
  · simp [Web.checkNumber, h]
  · simp [Baileys.checkNumber, h]
  · simp [notReadyWithStatus, Response.field, List.lookup]
  · simp [Web.send, sendGate_not_ready s b h]
  · simp [Baileys.send, sendGate_not_ready s b h]
  · decide
  · decide

/-- The amended C4 at a concrete input: the initial state and the sample request. -/
theorem not_ready_requests_are_rejected_witness :
    (Web.checkNumber Env.sample (State.initial 0) Body.hi).response.field "currentStatus"
      = some (JVal.str "initializing") ∧
    (Web.send Env.sample (State.initial 0) Body.hi).effects = [] := by
  have h := not_ready_requests_are_rejected Env.sample (State.initial 0) Body.hi (by decide)
  refine ⟨?_, ?_⟩
  · rw [h.1.1]
    exact h.1.2.2.2
  · rw [h.2.1]

/-! ## The processed-message record only grows -/

theorem web_handle_processedMessages (env : Env) (s : State) (e : Web.Event) :
    (Web.handle env s e).state.processedMessages = s.processedMessages := by
  cases e <;>
    simp [Web.handle, Web.onQr, Web.onAuthenticated, Web.onReady, Web.onLoadingScreen,
      Web.onAuthFailure, Web.onDisconnected, Web.onInitTimer, Web.onInitFailed]
  · split <;> simp
  · split <;> simp

theorem Baileys.qrBranch_processedMessages (env : Env) (s : State) (q : Option String) :
    (Baileys.qrBranch env s q).state.processedMessages = s.processedMessages := by
  unfold Baileys.qrBranch
  split
  · rfl
  · split
    · split <;> simp
    · rfl

theorem Baileys.openBranch_processedMessages (env : Env) (s : State) (c : Option String) :
    (Baileys.openBranch env s c).1.processedMessages = s.processedMessages := by
  unfold Baileys.openBranch
  split <;> simp

theorem Baileys.closeBranch_processedMessages (loggedOut : Nat) (env : Env) (s : State)
    (u : Baileys.Update) :
    (Baileys.closeBranch loggedOut env s u).1.processedMessages = s.processedMessages := by
  unfold Baileys.closeBranch
  split
  · simp only []
    split <;> simp
  · rfl

theorem baileys_handle_processedMessages (loggedOut : Nat) (env : Env) (s : State)
    (e : Baileys.Event) :
    (Baileys.handle loggedOut env s e).state.processedMessages = s.processedMessages := by
  cases e with
  | update u =>
    simp only [Baileys.handle, Baileys.onConnectionUpdate]
    split
    · exact Baileys.qrBranch_processedMessages env s u.qr
    · simp [Baileys.closeBranch_processedMessages, Baileys.openBranch_processedMessages,
        Baileys.qrBranch_processedMessages]
  | startFailed e => simp [Baileys.handle, Baileys.onStartFailed]
  | reconnectFailed e => simp [Baileys.handle, Baileys.onReconnectFailed]

theorem sendGate_mono (s : State) (b : Body) (y : Json) (h : y ∈ s.processedMessages) :
    y ∈ (sendGate s b).1.processedMessages := by
  unfold sendGate
  split
  · exact h
  · split
    · exact h
    · split
      · exact h
      · split <;> exact subset_setAdd _ _ _ h

theorem sendReply_state (s : State) (r : List Effect × Except String Unit) :
    (sendReply s r).state = s := by
  unfold sendReply
  split <;> rfl

theorem web_send_state (env : Env) (s : State) (b : Body) :
    (Web.send env s b).state = (sendGate s b).1 := by
  unfold Web.send
  split <;> rename_i h <;> simp [h, sendReply_state]

theorem baileys_send_state (env : Env) (s : State) (b : Body) :
    (Baileys.send env s b).state = (sendGate s b).1 := by
  unfold Baileys.send
  split <;> rename_i h <;> simp [h, sendReply_state]

theorem web_checkNumber_state (env : Env) (s : State) (b : Body) :
    (Web.checkNumber env s b).state = s := by
  unfold Web.checkNumber
  repeat (first | rfl | split)

theorem baileys_checkNumber_state (env : Env) (s : State) (b : Body) :
    (Baileys.checkNumber env s b).state = s := by
  unfold Baileys.checkNumber
  repeat (first | rfl | split)

theorem web_step_mono (env : Env) (s : State) (i : Input Web.Event) (y : Json)
    (h : y ∈ s.processedMessages) : y ∈ (Web.step env s i).state.processedMessages := by
  cases i with
  | event e => simpa [Web.step, web_handle_processedMessages] using h
  | request r =>
    cases r with
    | getQr => exact h
    | getHealth => exact h
    | checkNumber b => simpa [Web.step, Web.serve, web_checkNumber_state] using h
    | send b => simpa [Web.step, Web.serve, web_send_state] using sendGate_mono s b y h

theorem baileys_step_mono (loggedOut : Nat) (env : Env) (s : State) (i : Input Baileys.Event)
    (y : Json) (h : y ∈ s.processedMessages) :
    y ∈ (Baileys.step loggedOut env s i).state.processedMessages := by
  cases i with
  | event e => simpa [Baileys.step, baileys_handle_processedMessages] using h
  | request r =>
    cases r with
    | getQr => exact h
    | getHealth => exact h
    | checkNumber b => simpa [Baileys.step, Baileys.serve, baileys_checkNumber_state] using h
    | send b => simpa [Baileys.step, Baileys.serve, baileys_send_state] using sendGate_mono s b y h

theorem web_run_mono (trace : List (Env × Input Web.Event)) (s : State) (y : Json)
    (h : y ∈ s.processedMessages) : y ∈ (Web.run s trace).processedMessages := by
  induction trace generalizing s with
  | nil => exact h
  | cons x rest ih => exact ih _ (web_step_mono x.1 s x.2 y h)

theorem baileys_run_mono (loggedOut : Nat) (trace : List (Env × Input Baileys.Event))
    (s : State) (y : Json) (h : y ∈ s.processedMessages) :
    y ∈ (Baileys.run loggedOut s trace).processedMessages := by
  induction trace generalizing s with
  | nil => exact h
  | cons x rest ih => exact ih _ (baileys_step_mono loggedOut x.1 s x.2 y h)

/-- After a `/send` handled while ready, a present messageId is in the record. -/
theorem sendGate_marks (s : State) (b : Body) (h : s.connectionStatus = "ready")
    (hm : b.messageId.truthy = true) : b.messageId ∈ (sendGate s b).1.processedMessages := by
  by_cases hp : b.messageId ∈ s.processedMessages
  · exact sendGate_mono s b _ hp
  · by_cases hn : b.number.truthy = true
    · rw [sendGate_proceed s b h hm hp hn]
      exact mem_setAdd _ _
    · rw [sendGate_no_number s b h hm hp (by simpa using hn)]
      exact mem_setAdd _ _

theorem web_send_duplicate (env : Env) (s : State) (b : Body)
    (h : s.connectionStatus = "ready") (hm : b.messageId.truthy = true)
    (hp : b.messageId ∈ s.processedMessages) : Web.send env s b = ⟨s, [], duplicate⟩ := by
  simp [Web.send, sendGate_duplicate s b h hm hp]

theorem baileys_send_duplicate (env : Env) (s : State) (b : Body)
    (h : s.connectionStatus = "ready") (hm : b.messageId.truthy = true)
    (hp : b.messageId ∈ s.processedMessages) : Baileys.send env s b = ⟨s, [], duplicate⟩ := by
  simp [Baileys.send, sendGate_duplicate s b h hm hp]

/-! ## C1: idempotence of `/send` -/

/-- Where the deduplication works, in both servers. Take a `/send` request with a present
messageId handled while the status is `ready`, then any run of further events and requests,
then a second `/send` request whose messageId is the same value (its other fields being
anything), again handled while the status is `ready`. The second request is answered
`200 success, duplicate`, performs no effect at all and leaves the state as it found it.
For a string, a number or a boolean the same value is the same JSON text; for an array or
an object it is the same object, which a later request never carries. -/
theorem send_same_messageId_is_duplicate (loggedOut : Nat) (s : State) (env1 env2 : Env)
    (b1 b2 : Body) (midW : List (Env × Input Web.Event))
    (midB : List (Env × Input Baileys.Event))
    (h : s.connectionStatus = "ready") (hm : b1.messageId.truthy = true)
    (hid : b2.messageId = b1.messageId) :
    ((Web.run (Web.send env1 s b1).state midW).connectionStatus = "ready" →
      Web.send env2 (Web.run (Web.send env1 s b1).state midW) b2 =
        ⟨Web.run (Web.send env1 s b1).state midW, [], duplicate⟩) ∧
    ((Baileys.run loggedOut (Baileys.send env1 s b1).state midB).connectionStatus = "ready" →
      Baileys.send env2 (Baileys.run loggedOut (Baileys.send env1 s b1).state midB) b2 =
        ⟨Baileys.run loggedOut (Baileys.send env1 s b1).state midB, [], duplicate⟩) := by
  have hmark : b1.messageId ∈ (sendGate s b1).1.processedMessages := sendGate_marks s b1 h hm
  constructor
  · intro hr
    have hin : b2.messageId ∈ (Web.run (Web.send env1 s b1).state midW).processedMessages := by
      rw [hid]
      exact web_run_mono midW _ _ (by rw [web_send_state]; exact hmark)
    exact web_send_duplicate env2 _ b2 hr (by rw [hid]; exact hm) hin
  · intro hr
    have hin : b2.messageId ∈
        (Baileys.run loggedOut (Baileys.send env1 s b1).state midB).processedMessages := by
      rw [hid]
      exact baileys_run_mono loggedOut midB _ _ (by rw [baileys_send_state]; exact hmark)
    exact baileys_send_duplicate env2 _ b2 hr (by rw [hid]; exact hm) hin

/-- The scenario of the spec: the request with the string messageId `m1` sent twice while
ready, with a disconnect and a reconnect in between. The first request sends, the second
is a duplicate without effects. -/
theorem send_same_messageId_is_duplicate_witness :
    (Web.send Env.sample State.ready Body.hi).response = success ∧
    (Web.send Env.sample State.ready Body.hi).effects =
      [Effect.sendMessage (Json.str "15551234567@c.us") (Payload.text (Json.str "hi"))] ∧
    (Web.send Env.sample (Web.run (Web.send Env.sample State.ready Body.hi).state
      Web.sampleRun) Body.hi).response = duplicate ∧
    (Web.send Env.sample (Web.run (Web.send Env.sample State.ready Body.hi).state
      Web.sampleRun) Body.hi).effects = [] ∧
    (Baileys.send Env.sample (Baileys.run 401 (Baileys.send Env.sample State.ready
      Body.hi).state Baileys.sampleRun) Body.hi).effects = [] := by
  have h := send_same_messageId_is_duplicate 401 State.ready Env.sample Env.sample Body.hi
    Body.hi Web.sampleRun Baileys.sampleRun (by decide) (by decide) rfl
  refine ⟨by decide, by decide, ?_, ?_, ?_⟩
  · rw [h.1 (by decide)]
  · rw [h.1 (by decide)]
  · rw [h.2 (by decide)]

/-- C1, both servers at the failing input. The request whose messageId is the JSON array
`["m8"]` is handled while ready and its text is sent; then the same request arrives again.
Its messageId is the same JSON text, parsed into a new array, and `processedMessages.has`
looks for that new array, which it does not hold. So the second request is answered
`200 success` without `duplicate`, and the text is sent a second time. The claim asks for
`200 success, duplicate` and no send. -/
theorem array_messageId_is_sent_twice :
    Body.listId.messageId.sameJson Body.listIdAgain.messageId = true ∧
    Body.listId.messageId.truthy = true ∧
    Web.send Env.sample State.ready Body.listId =
      ⟨{ State.ready with processedMessages := [Body.listId.messageId] },
        [Effect.sendMessage (Json.str "15551234567@c.us") (Payload.text (Json.str "hi"))],
        success⟩ ∧
    Web.send Env.sample (Web.send Env.sample State.ready Body.listId).state
        Body.listIdAgain =
      ⟨{ State.ready with
          processedMessages := [Body.listId.messageId, Body.listIdAgain.messageId] },
        [Effect.sendMessage (Json.str "15551234567@c.us") (Payload.text (Json.str "hi"))],
        success⟩ ∧
    (Web.send Env.sample (Web.send Env.sample State.ready Body.listId).state
        Body.listIdAgain).response ≠ duplicate ∧
    Baileys.send Env.sample (Baileys.send Env.sample State.ready Body.listId).state
        Body.listIdAgain =
      ⟨{ State.ready with
          processedMessages := [Body.listId.messageId, Body.listIdAgain.messageId] },
        [Effect.sendMessage (Json.str "15551234567@s.whatsapp.net")
          (Payload.text (Json.str "hi"))],
        success⟩ := by
  decide

/-! ## C3: the messageId is recorded before the sends -/

/-- The messageId is recorded before the sends, in both servers. For a `/send` request
handled while ready, with a present messageId that is not yet processed and a present
recipient: the synchronous head of the handler adds the messageId to `processedMessages`
and only then goes on to the sends, which run on the state that already holds the messageId
and do not touch it. So whatever the sends do, and in particular when one throws and the
response is 500, the messageId is recorded in the state the handler leaves; and after any
run of further events and requests, a `/send` whose messageId is the same value, handled
while ready, is answered `200 success, duplicate` with no effect. For an array or an object
the same value is the same object, which a later request never carries. -/
theorem send_records_before_sending (loggedOut : Nat) (env : Env) (s : State) (b : Body)
    (h : s.connectionStatus = "ready") (hm : b.messageId.truthy = true)
    (hp : b.messageId ∉ s.processedMessages) (hn : b.number.truthy = true) :
    sendGate s b =
      ({ s with processedMessages := setAdd s.processedMessages b.messageId }, none) ∧
    b.messageId ∈ (sendGate s b).1.processedMessages ∧
    (Web.send env s b = sendReply (sendGate s b).1 (Web.dispatch env b) ∧
      Baileys.send env s b = sendReply (sendGate s b).1 (Baileys.dispatch env b)) ∧
    (b.messageId ∈ (Web.send env s b).state.processedMessages ∧
      b.messageId ∈ (Baileys.send env s b).state.processedMessages) ∧
    (∀ (e : String), (Web.send env s b).response = sendFailed e →
      b.messageId ∈ (Web.send env s b).state.processedMessages) ∧
    (∀ (e : String), (Baileys.send env s b).response = sendFailed e →
      b.messageId ∈ (Baileys.send env s b).state.processedMessages) ∧
    (∀ (mid : List (Env × Input Web.Event)) (env2 : Env) (b2 : Body),
      b2.messageId = b.messageId →
      (Web.run (Web.send env s b).state mid).connectionStatus = "ready" →
      Web.send env2 (Web.run (Web.send env s b).state mid) b2 =
        ⟨Web.run (Web.send env s b).state mid, [], duplicate⟩) ∧
    (∀ (mid : List (Env × Input Baileys.Event)) (env2 : Env) (b2 : Body),
      b2.messageId = b.messageId →
      (Baileys.run loggedOut (Baileys.send env s b).state mid).connectionStatus = "ready" →
      Baileys.send env2 (Baileys.run loggedOut (Baileys.send env s b).state mid) b2 =
        ⟨Baileys.run loggedOut (Baileys.send env s b).state mid, [], duplicate⟩) := by
  have hg := sendGate_proceed s b h hm hp hn
  have hmark : b.messageId ∈ (sendGate s b).1.processedMessages := sendGate_marks s b h hm
  have hW : b.messageId ∈ (Web.send env s b).state.processedMessages := by
    rw [web_send_state]; exact hmark
  have hB : b.messageId ∈ (Baileys.send env s b).state.processedMessages := by
    rw [baileys_send_state]; exact hmark
  refine ⟨hg, hmark, ⟨?_, ?_⟩, ⟨hW, hB⟩, fun _ _ => hW, fun _ _ => hB, ?_, ?_⟩
  · simp [Web.send, hg]
  · simp [Baileys.send, hg]
  · intro mid env2 b2 hid hr
    have hin : b2.messageId ∈ (Web.run (Web.send env s b).state mid).processedMessages := by
      rw [hid]
      exact web_run_mono mid _ _ hW
    exact web_send_duplicate env2 _ b2 hr (by rw [hid]; exact hm) hin
  · intro mid env2 b2 hid hr
    have hin : b2.messageId ∈
        (Baileys.run loggedOut (Baileys.send env s b).state mid).processedMessages := by
      rw [hid]
      exact baileys_run_mono loggedOut mid _ _ hB
    exact baileys_send_duplicate env2 _ b2 hr (by rw [hid]; exact hm) hin

/-- The lemma at a concrete input with the string messageId `m1`: the backend send throws,
the response is 500, `m1` is recorded all the same, and the retry is answered as a
duplicate. -/
theorem send_records_before_sending_witness :
    (Web.send Env.failing State.ready Body.hi).response = sendFailed "send failed" ∧
    (Baileys.send Env.failing State.ready Body.hi).response = sendFailed "send failed" ∧
    Json.str "m1" ∈ (Web.send Env.failing State.ready Body.hi).state.processedMessages ∧
    Web.send Env.sample (Web.send Env.failing State.ready Body.hi).state Body.hi =
      ⟨(Web.send Env.failing State.ready Body.hi).state, [], duplicate⟩ := by
  have h := send_records_before_sending 401 Env.failing State.ready Body.hi (by decide)
    (by decide) (by decide) (by decide)
  exact ⟨by decide, by decide, h.2.2.2.1.1,
    h.2.2.2.2.2.2.1 [] Env.sample Body.hi rfl (by decide)⟩

/-- C3, both servers at the failing input. The request whose messageId is the JSON object
with the member `id: "m9"` is handled while ready; its messageId is recorded, the backend
send throws and the response is 500. The retry carries the same JSON text, parsed into a
new object, which `processedMessages.has` does not find: the retry is answered
`200 success` without `duplicate` and the backend send is invoked again. The claim asks for
`200 success, duplicate` without a backend call. This is the defect shown under C1. -/
theorem object_messageId_is_resent_after_failure :
    Body.objectId.messageId.sameJson Body.objectIdAgain.messageId = true ∧
    Web.send Env.failing State.ready Body.objectId =
      ⟨{ State.ready with processedMessages := [Body.objectId.messageId] },
        [Effect.sendMessage (Json.str "15551234567@c.us") (Payload.text (Json.str "hi")),
          Effect.log "SERVER ==> Send Error: send failed"],
        sendFailed "send failed"⟩ ∧
    Web.send Env.sample (Web.send Env.failing State.ready Body.objectId).state
        Body.objectIdAgain =
      ⟨{ State.ready with
          processedMessages := [Body.objectId.messageId, Body.objectIdAgain.messageId] },
        [Effect.sendMessage (Json.str "15551234567@c.us") (Payload.text (Json.str "hi"))],
        success⟩ ∧
    (Baileys.send Env.failing State.ready Body.objectId).response
      = sendFailed "send failed" ∧
    Baileys.send Env.sample (Baileys.send Env.failing State.ready Body.objectId).state
        Body.objectIdAgain =
      ⟨{ State.ready with
          processedMessages := [Body.objectId.messageId, Body.objectIdAgain.messageId] },
        [Effect.sendMessage (Json.str "15551234567@s.whatsapp.net")
          (Payload.text (Json.str "hi"))],
        success⟩ := by
  decide

/-! ## C10: send sequence and result -/

theorem sendReply_sends (s : State) (r : List Effect × Except String Unit) :
    (sendReply s r).effects.filter Effect.isSend = r.1.filter Effect.isSend := by
  unfold sendReply
  split <;> simp [Effect.isSend]

theorem sendReply_response (s : State) (r : List Effect × Except String Unit) :
    (sendReply s r).response =
      (match r.2 with
        | .ok _ => success
        | .error e => sendFailed e) := by
  unfold sendReply
  split <;> simp_all

theorem web_dispatch_in_order (env : Env) (s : State) (b : Body) (rcpt : Json)
    (hnum : Web.chatIdOf b.number = .ok rcpt) :
    SendsInOrder env rcpt b (Web.attachment env b.pdfPath b.caption)
      (sendReply s (Web.dispatch env b)) := by
  unfold SendsInOrder
  simp only [sendReply_sends, sendReply_response, Web.dispatch, hnum, Web.textStep,
    Web.mediaStep]
  refine ⟨?_, ?_⟩
  · intro e hmsg herr
    simp [hmsg, herr, Effect.isSend]
  · intro htext
    refine ⟨?_, ?_, ?_⟩
    · intro hpdf
      rcases htext with hmsg | hok
      · simp [hmsg, hpdf]
      · cases hmsg : b.message.truthy <;> simp [hmsg, hok, hpdf, Effect.isSend]
    · intro e hpdf hatt
      rcases htext with hmsg | hok
      · simp [hmsg, hpdf, hatt]
      · cases hmsg : b.message.truthy <;> simp [hmsg, hok, hpdf, hatt, Effect.isSend]
    · intro doc hpdf hatt
      rcases htext with hmsg | hok
      · simp [hmsg, hpdf, hatt, Effect.isSend]
      · cases hmsg : b.message.truthy <;> simp [hmsg, hok, hpdf, hatt, Effect.isSend]

theorem baileys_dispatch_in_order (env : Env) (s : State) (b : Body) (jid : String)
    (hnum : Baileys.jidOf b.number = .ok jid) :
    SendsInOrder env (Json.str jid) b (Baileys.attachment env b.pdfPath b.caption)
      (sendReply s (Baileys.dispatch env b)) := by
  unfold SendsInOrder
  simp only [sendReply_sends, sendReply_response, Baileys.dispatch, hnum, Baileys.textStep,
    Baileys.documentStep]
  refine ⟨?_, ?_⟩
  · intro e hmsg herr
    simp [hmsg, herr, Effect.isSend]
  · intro htext
    refine ⟨?_, ?_, ?_⟩
    · intro hpdf
      rcases htext with hmsg | hok
      · simp [hmsg, hpdf]
      · cases hmsg : b.message.truthy <;> simp [hmsg, hok, hpdf, Effect.isSend]
    · intro e hpdf hatt
      rcases htext with hmsg | hok
      · simp [hmsg, hpdf, hatt]
      · cases hmsg : b.message.truthy <;> simp [hmsg, hok, hpdf, hatt, Effect.isSend]
    · intro doc hpdf hatt
      rcases htext with hmsg | hok
      · simp [hmsg, hpdf, hatt, Effect.isSend]
      · cases hmsg : b.message.truthy <;> simp [hmsg, hok, hpdf, hatt, Effect.isSend]

/-- The address a string recipient gets in either server. -/
theorem address_of_string (n : String) :
    Web.chatIdOf (Json.str n) =
      .ok (if strIncludes n "@c.us" then Json.str n else Json.str (n ++ "@c.us")) ∧
    Baileys.jidOf (Json.str n) = .ok (n ++ "@s.whatsapp.net") := by
  constructor <;> rfl

/-- C10, the whatsapp-web.js server at the failing input. The request `m2` is handled while
ready, `m2` is not yet processed, the recipient is present as the JSON number 15551234567,
a text body is present, and every backend send would succeed. The address computation
`number.includes('@c.us')` of line 204 throws before the first send: no send is invoked and
the response is `500 number.includes is not a function`. The claim asks for the text send
and `200 success`, which is what the Baileys server does with the same request. -/
theorem web_send_numeric_recipient_sends_nothing :
    State.ready.connectionStatus = "ready" ∧
    Body.numeric.messageId.truthy = true ∧
    Body.numeric.messageId ∉ State.ready.processedMessages ∧
    Body.numeric.number.truthy = true ∧
    Body.numeric.message.truthy = true ∧
    (Web.send Env.sample State.ready Body.numeric).effects.filter Effect.isSend = [] ∧
    (Web.send Env.sample State.ready Body.numeric).response
      = sendFailed "number.includes is not a function" ∧
    (Web.send Env.sample State.ready Body.numeric).response ≠ success ∧
    (Baileys.send Env.sample State.ready Body.numeric).effects =
      [Effect.sendMessage (Json.str "15551234567@s.whatsapp.net")
        (Payload.text (Json.str "hi"))] ∧
    (Baileys.send Env.sample State.ready Body.numeric).response = success := by
  decide

/-- What `/send` does once past the gate. For every `/send` request handled while ready
with a present messageId that is not yet processed and a present recipient, in either
server: when the recipient's address is computed, the backend sends are exactly, in this
order, a text send of `message` when `message` is present, then, when `pdfPath` is present,
a send of the attachment prepared from the file at `pdfPath` with the caption `caption`, or
`''` when no caption is given; when every invoked send succeeds the response is
`200 success`; when a step throws (a send, or the preparation of the attachment, which
reads the file), no later send is invoked and the response is 500 with the thrown error's
message. When the computation of the address throws, no send is invoked and the response is
500 with that error's message. The attachment is `MessageMedia.fromFilePath(pdfPath)` with
the caption option in the whatsapp-web.js server, and the document object (file content,
`application/pdf`, base name of `pdfPath`, caption) in the Baileys server. -/
theorem send_sequence_and_result (env : Env) (s : State) (b : Body)
    (h : s.connectionStatus = "ready") (hm : b.messageId.truthy = true)
    (hp : b.messageId ∉ s.processedMessages) (hn : b.number.truthy = true) :
    (∀ rcpt : Json, Web.chatIdOf b.number = .ok rcpt →
      SendsInOrder env rcpt b (Web.attachment env b.pdfPath b.caption)
        (Web.send env s b)) ∧
    (∀ e : String, Web.chatIdOf b.number = .error e →
      (Web.send env s b).effects.filter Effect.isSend = [] ∧
      (Web.send env s b).response = sendFailed e) ∧
    (∀ jid : String, Baileys.jidOf b.number = .ok jid →
      SendsInOrder env (Json.str jid) b (Baileys.attachment env b.pdfPath b.caption)
        (Baileys.send env s b)) ∧
    (∀ e : String, Baileys.jidOf b.number = .error e →
      (Baileys.send env s b).effects.filter Effect.isSend = [] ∧
      (Baileys.send env s b).response = sendFailed e) ∧
    (∀ media : String, env.fromFilePath b.pdfPath = .ok media →
      Web.attachment env b.pdfPath b.caption =
        .ok (Payload.media media (if b.caption.truthy then b.caption else Json.str ""))) ∧
    (∀ data name : String, env.readFileSync b.pdfPath = .ok data →
      env.basename b.pdfPath = .ok name →
      Baileys.attachment env b.pdfPath b.caption =
        .ok (Payload.document data "application/pdf" name
          (if b.caption.truthy then b.caption else Json.str ""))) := by
  have hg := sendGate_proceed s b h hm hp hn
  have hW : Web.send env s b = sendReply (sendGate s b).1 (Web.dispatch env b) := by
    simp [Web.send, hg]
  have hB : Baileys.send env s b = sendReply (sendGate s b).1 (Baileys.dispatch env b) := by
    simp [Baileys.send, hg]
  refine ⟨?_, ?_, ?_, ?_, ?_, ?_⟩
  · intro rcpt hnum
    rw [hW]
    exact web_dispatch_in_order env _ b rcpt hnum
  · intro e hnum
    rw [hW, sendReply_sends, sendReply_response]
    simp [Web.dispatch, hnum]
  · intro jid hnum
    rw [hB]
    exact baileys_dispatch_in_order env _ b jid hnum
  · intro e hnum
    rw [hB, sendReply_sends, sendReply_response]
    simp [Baileys.dispatch, hnum]
  · intro media hload
    simp [Web.attachment, hload, Json.orElse]
  · intro data name hread hbase
    simp [Baileys.attachment, hread, hbase, Json.orElse]

/-- The lemma at a concrete input: the request `m3` with a string recipient, a text body and
an attachment, every outside operation succeeding. Both sends are invoked, text first, and
the response is `200 success`. -/
theorem send_sequence_and_result_witness :
    (Web.send Env.sample State.ready Body.withPdf).effects.filter Effect.isSend =
      [Effect.sendMessage (Json.str "15551234567@c.us") (Payload.text (Json.str "hi")),
        Effect.sendMessage (Json.str "15551234567@c.us")
          (Payload.media "media" (Json.str ""))] ∧
    (Web.send Env.sample State.ready Body.withPdf).response = success := by
  have h := (send_sequence_and_result Env.sample State.ready Body.withPdf (by decide)
    (by decide) (by decide) (by decide)).1 (Json.str "15551234567@c.us") rfl
  have h3 := (h.2 (Or.inr rfl)).2.2 (Payload.media "media" (Json.str "")) (by decide) rfl
  exact ⟨by simpa using h3.1, by simpa using h3.2⟩

/-! ## C7: reconnect policy of the Baileys server -/

theorem setStatus_count_start (s : State) (st : String) (t : Nat) :
    (setStatus s st t).2.count Effect.startWhatsApp = 0 := by
  unfold setStatus
  split <;> simp

theorem Baileys.qrBranch_count_start (env : Env) (s : State) (q : Option String) :
    (Baileys.qrBranch env s q).effects.count Effect.startWhatsApp = 0 := by
  unfold Baileys.qrBranch
  split
  · rfl
  · split
    · split
      · simp [setStatus_count_start]
      · simp
    · rfl

theorem Baileys.closeBranch_reconnect (loggedOut : Nat) (env : Env) (s : State)
    (u : Baileys.Update) (hc : u.connection = some "close")
    (hr : u.statusCode ≠ some loggedOut) :
    (Baileys.closeBranch loggedOut env s u).1.connectionStatus = "disconnected" ∧
    (Baileys.closeBranch loggedOut env s u).2.count Effect.startWhatsApp = 1 ∧
    (Baileys.closeBranch loggedOut env s u).1.lastQrBase64 = none ∧
    (Baileys.closeBranch loggedOut env s u).1.qrGenerated = false := by
  simp [Baileys.closeBranch, hc, hr, setStatus_count_start, List.count_cons]

theorem Baileys.closeBranch_logged_out (loggedOut : Nat) (env : Env) (s : State)
    (u : Baileys.Update) (hc : u.connection = some "close")
    (hr : u.statusCode = some loggedOut) :
    (Baileys.closeBranch loggedOut env s u).1.connectionStatus = "logged_out" ∧
    (Baileys.closeBranch loggedOut env s u).2.count Effect.startWhatsApp = 0 ∧
    (Baileys.closeBranch loggedOut env s u).1.lastQrBase64 = none ∧
    (Baileys.closeBranch loggedOut env s u).1.qrGenerated = false := by
  simp [Baileys.closeBranch, hc, hr, setStatus_count_start, List.count_cons]

theorem Baileys.onConnectionUpdate_close (loggedOut : Nat) (env : Env) (s : State)
    (u : Baileys.Update) (hc : u.connection = some "close")
    (hq : (Baileys.qrBranch env s u.qr).thrown = none) :
    (Baileys.onConnectionUpdate loggedOut env s u).state =
      (Baileys.closeBranch loggedOut env (Baileys.qrBranch env s u.qr).state u).1 ∧
    (Baileys.onConnectionUpdate loggedOut env s u).effects =
      (Baileys.qrBranch env s u.qr).effects ++
        (Baileys.closeBranch loggedOut env (Baileys.qrBranch env s u.qr).state u).2 ∧
    (Baileys.onConnectionUpdate loggedOut env s u).thrown = none := by
  simp [Baileys.onConnectionUpdate, hq, Baileys.openBranch, hc]

/-- C7. Reconnect policy of the Baileys server. For every prior state, environment and value
of the library constant `DisconnectReason.loggedOut`, and every update whose `connection`
is `close`: the close block of the handler (lines 66-79) calls `startWhatsApp` exactly once
and leaves the status `disconnected` when the reason differs from the logged-out code (an
absent reason included), and calls it zero times and leaves the status `logged_out` when
the reason equals the logged-out code; in both cases `lastQrBase64` is null and
`qrGenerated` is false afterwards. The same holds of the whole `connection.update` handler
whenever the handler reaches the close block, that is, whenever its pairing block (run
first, outside any `try`) does not throw; the handler then completes without an exception. -/
theorem close_update_reconnects_unless_logged_out (loggedOut : Nat) (env : Env) (s : State)
    (u : Baileys.Update) (hc : u.connection = some "close") :
    (u.statusCode ≠ some loggedOut →
      (Baileys.closeBranch loggedOut env s u).1.connectionStatus = "disconnected" ∧
      (Baileys.closeBranch loggedOut env s u).2.count Effect.startWhatsApp = 1 ∧
      (Baileys.closeBranch loggedOut env s u).1.lastQrBase64 = none ∧
      (Baileys.closeBranch loggedOut env s u).1.qrGenerated = false) ∧
    (u.statusCode = some loggedOut →
      (Baileys.closeBranch loggedOut env s u).1.connectionStatus = "logged_out" ∧
      (Baileys.closeBranch loggedOut env s u).2.count Effect.startWhatsApp = 0 ∧
      (Baileys.closeBranch loggedOut env s u).1.lastQrBase64 = none ∧
      (Baileys.closeBranch loggedOut env s u).1.qrGenerated = false) ∧
    ((Baileys.qrBranch env s u.qr).thrown = none →
      (Baileys.onConnectionUpdate loggedOut env s u).thrown = none ∧
      (u.statusCode ≠ some loggedOut →
        (Baileys.onConnectionUpdate loggedOut env s u).state.connectionStatus
          = "disconnected" ∧
        (Baileys.onConnectionUpdate loggedOut env s u).effects.count Effect.startWhatsApp
          = 1 ∧
        (Baileys.onConnectionUpdate loggedOut env s u).state.lastQrBase64 = none ∧
        (Baileys.onConnectionUpdate loggedOut env s u).state.qrGenerated = false) ∧
      (u.statusCode = some loggedOut →
        (Baileys.onConnectionUpdate loggedOut env s u).state.connectionStatus
          = "logged_out" ∧
        (Baileys.onConnectionUpdate loggedOut env s u).effects.count Effect.startWhatsApp
          = 0 ∧
        (Baileys.onConnectionUpdate loggedOut env s u).state.lastQrBase64 = none ∧
        (Baileys.onConnectionUpdate loggedOut env s u).state.qrGenerated = false)) := by
  refine ⟨Baileys.closeBranch_reconnect loggedOut env s u hc,
    Baileys.closeBranch_logged_out loggedOut env s u hc, ?_⟩
  intro hq
  obtain ⟨hs, he, ht⟩ := Baileys.onConnectionUpdate_close loggedOut env s u hc hq
  refine ⟨ht, ?_, ?_⟩
  · intro hr
    rw [hs, he, List.count_append, Baileys.qrBranch_count_start, Nat.zero_add]
    exact Baileys.closeBranch_reconnect loggedOut env _ u hc hr
  · intro hr
    rw [hs, he, List.count_append, Baileys.qrBranch_count_start, Nat.zero_add]
    exact Baileys.closeBranch_logged_out loggedOut env _ u hc hr

/-- C7 at concrete inputs: from a state with a pairing code on display, a close with reason
428 reconnects once and ends `disconnected`; a close with the logged-out code 401 does not
reconnect and ends `logged_out`. -/
theorem close_update_reconnects_unless_logged_out_witness :
    (Baileys.onConnectionUpdate 401 Env.sample State.pairing
      Baileys.Update.closed).state.connectionStatus = "disconnected" ∧
    (Baileys.onConnectionUpdate 401 Env.sample State.pairing
      Baileys.Update.closed).effects.count Effect.startWhatsApp = 1 ∧
    (Baileys.onConnectionUpdate 401 Env.sample State.pairing
      Baileys.Update.loggedOut).state.connectionStatus = "logged_out" ∧
    (Baileys.onConnectionUpdate 401 Env.sample State.pairing
      Baileys.Update.loggedOut).effects.count Effect.startWhatsApp = 0 ∧
    (Baileys.onConnectionUpdate 401 Env.sample State.pairing
      Baileys.Update.loggedOut).state.lastQrBase64 = none := by
  have h1 := (close_update_reconnects_unless_logged_out 401 Env.sample State.pairing
    Baileys.Update.closed rfl).2.2 rfl
  have h2 := (close_update_reconnects_unless_logged_out 401 Env.sample State.pairing
    Baileys.Update.loggedOut rfl).2.2 rfl
  have a := h1.2.1 (by decide)
  have b := h2.2.2 rfl
  exact ⟨a.1, a.2.1, b.1, b.2.1, b.2.2.1⟩

/-! ## C9: transition table of the whatsapp-web.js server -/

/-- C9. Transition table of the whatsapp-web.js server. From every prior state and in
every environment the event handlers end as the table lists:
`authenticated` gives status `authenticated` with the artifact cleared (`lastQrBase64` null,
`qrGenerated` false); `ready` gives status `ready`, the artifact cleared and `loadingSince`
null, whether or not the `sendSeen` patch succeeds; `loading_screen(p, msg)` gives status
`loading`, `loadingPercent = p`, `loadingMessage = msg`, and `loadingSince` set to the
current time when it was unset (null, or the falsy timestamp 0, which the handler's test
`!loadingSince` treats alike) and left unchanged otherwise; `auth_failure` gives status
`failure` with the artifact cleared; `disconnected(reason)`, for every reason, gives status
`disconnected` with the artifact cleared, and none of its effects starts the client again;
`qr` with a successful render gives status `qr`, the rendered image as artifact (so a
non-null one) and `qrGenerated` true. No handler throws. -/
theorem web_event_transition_table (env : Env) (s : State) :
    ((Web.handle env s Web.Event.authenticated).state.connectionStatus = "authenticated" ∧
      (Web.handle env s Web.Event.authenticated).state.lastQrBase64 = none ∧
      (Web.handle env s Web.Event.authenticated).state.qrGenerated = false ∧
      (Web.handle env s Web.Event.authenticated).thrown = none) ∧
    ((Web.handle env s Web.Event.ready).state.connectionStatus = "ready" ∧
      (Web.handle env s Web.Event.ready).state.lastQrBase64 = none ∧
      (Web.handle env s Web.Event.ready).state.qrGenerated = false ∧
      (Web.handle env s Web.Event.ready).state.loadingSince = none ∧
      (Web.handle env s Web.Event.ready).thrown = none) ∧
    (∀ p msg : JVal,
      (Web.handle env s (Web.Event.loading_screen p msg)).state.connectionStatus = "loading" ∧
      (Web.handle env s (Web.Event.loading_screen p msg)).state.loadingPercent = p ∧
      (Web.handle env s (Web.Event.loading_screen p msg)).state.loadingMessage = msg ∧
      (Web.handle env s (Web.Event.loading_screen p msg)).state.loadingSince =
        (if truthyTime s.loadingSince then s.loadingSince else some env.now) ∧
      (s.loadingSince = none →
        (Web.handle env s (Web.Event.loading_screen p msg)).state.loadingSince
          = some env.now) ∧
      (∀ t : Nat, s.loadingSince = some t → t ≠ 0 →
        (Web.handle env s (Web.Event.loading_screen p msg)).state.loadingSince = some t) ∧
      (Web.handle env s (Web.Event.loading_screen p msg)).thrown = none) ∧
    (∀ msg : JVal,
      (Web.handle env s (Web.Event.auth_failure msg)).state.connectionStatus = "failure" ∧
      (Web.handle env s (Web.Event.auth_failure msg)).state.lastQrBase64 = none ∧
      (Web.handle env s (Web.Event.auth_failure msg)).state.qrGenerated = false ∧
      (Web.handle env s (Web.Event.auth_failure msg)).thrown = none) ∧
    (∀ reason : JVal,
      (Web.handle env s (Web.Event.disconnected reason)).state.connectionStatus
        = "disconnected" ∧
      (Web.handle env s (Web.Event.disconnected reason)).state.lastQrBase64 = none ∧
      (Web.handle env s (Web.Event.disconnected reason)).state.qrGenerated = false ∧
      (∀ e ∈ (Web.handle env s (Web.Event.disconnected reason)).effects,
        e.isStart = false) ∧
      (Web.handle env s (Web.Event.disconnected reason)).thrown = none) ∧
    (∀ q url : String, env.toDataURL q = .ok url →
      (Web.handle env s (Web.Event.qr q)).state.connectionStatus = "qr" ∧
      (Web.handle env s (Web.Event.qr q)).state.lastQrBase64 = some url ∧
      (Web.handle env s (Web.Event.qr q)).state.lastQrBase64 ≠ none ∧
      (Web.handle env s (Web.Event.qr q)).state.qrGenerated = true ∧
      (Web.handle env s (Web.Event.qr q)).thrown = none) := by
  refine ⟨?_, ?_, ?_, ?_, ?_, ?_⟩
  · simp [Web.handle, Web.onAuthenticated]
  · simp [Web.handle, Web.onReady]
  · intro p msg
    refine ⟨?_, ?_, ?_, ?_, ?_, ?_, ?_⟩
    · simp [Web.handle, Web.onLoadingScreen]
    · simp [Web.handle, Web.onLoadingScreen]
    · simp [Web.handle, Web.onLoadingScreen]
    · simp [Web.handle, Web.onLoadingScreen]
      split <;> simp_all
    · intro h
      simp [Web.handle, Web.onLoadingScreen, h, truthyTime]
    · intro t h ht
      simp [Web.handle, Web.onLoadingScreen, h, truthyTime, ht]
    · simp [Web.handle, Web.onLoadingScreen]
  · intro msg
    simp [Web.handle, Web.onAuthFailure]
  · intro reason
    refine ⟨?_, ?_, ?_, ?_, ?_⟩
    · simp [Web.handle, Web.onDisconnected]
    · simp [Web.handle, Web.onDisconnected]
    · simp [Web.handle, Web.onDisconnected]
    · intro e he
      simp only [Web.handle, Web.onDisconnected, List.mem_cons] at he
      rcases he with rfl | he
      · rfl
      · exact (setStatus_effects_not_start _ _ _ e he).1
    · simp [Web.handle, Web.onDisconnected]
  · intro q url h
    simp [Web.handle, Web.onQr, h]

/-! ## Requests leave the session variables alone -/

theorem sendGate_session (s : State) (b : Body) :
    (sendGate s b).1.connectionStatus = s.connectionStatus ∧
    (sendGate s b).1.lastQrBase64 = s.lastQrBase64 ∧
    (sendGate s b).1.qrGenerated = s.qrGenerated := by
  unfold sendGate
  repeat (first | exact ⟨rfl, rfl, rfl⟩ | split)

theorem web_serve_session (env : Env) (s : State) (r : Request) :
    (Web.serve env s r).state.connectionStatus = s.connectionStatus ∧
    (Web.serve env s r).state.lastQrBase64 = s.lastQrBase64 ∧
    (Web.serve env s r).state.qrGenerated = s.qrGenerated := by
  cases r with
  | getQr => exact ⟨rfl, rfl, rfl⟩
  | getHealth => exact ⟨rfl, rfl, rfl⟩
  | checkNumber b => simp [Web.serve, web_checkNumber_state]
  | send b =>
    simp only [Web.serve, web_send_state]
    exact sendGate_session s b

theorem baileys_serve_session (env : Env) (s : State) (r : Request) :
    (Baileys.serve env s r).state.connectionStatus = s.connectionStatus ∧
    (Baileys.serve env s r).state.lastQrBase64 = s.lastQrBase64 ∧
    (Baileys.serve env s r).state.qrGenerated = s.qrGenerated := by
  cases r with
  | getQr => exact ⟨rfl, rfl, rfl⟩
  | getHealth => exact ⟨rfl, rfl, rfl⟩
  | checkNumber b => simp [Baileys.serve, baileys_checkNumber_state]
  | send b =>
    simp only [Baileys.serve, baileys_send_state]
    exact sendGate_session s b

/-! ## Invariants along a run -/

theorem web_run_invariant (P : State → Prop) (ok : Env × Input Web.Event → Bool)
    (hstep : ∀ env s i, ok (env, i) = true → P s → P (Web.step env s i).state)
    (trace : List (Env × Input Web.Event)) (s : State) (hall : trace.all ok = true)
    (h : P s) : P (Web.run s trace) := by
  induction trace generalizing s with
  | nil => exact h
  | cons x rest ih =>
    simp only [List.all_cons, Bool.and_eq_true] at hall
    exact ih _ hall.2 (hstep x.1 s x.2 hall.1 h)

theorem baileys_run_invariant (loggedOut : Nat) (P : State → Prop)
    (ok : Env × Input Baileys.Event → Bool)
    (hstep : ∀ env s i, ok (env, i) = true → P s → P (Baileys.step loggedOut env s i).state)
    (trace : List (Env × Input Baileys.Event)) (s : State) (hall : trace.all ok = true)
    (h : P s) : P (Baileys.run loggedOut s trace) := by
  induction trace generalizing s with
  | nil => exact h
  | cons x rest ih =>
    simp only [List.all_cons, Bool.and_eq_true] at hall
    exact ih _ hall.2 (hstep x.1 s x.2 hall.1 h)

/-- The session variables after a whatsapp-web.js event, case by case. -/
theorem Web.handle_session (env : Env) (s : State) (e : Web.Event) :
    ((Web.handle env s e).state.connectionStatus, (Web.handle env s e).state.lastQrBase64,
      (Web.handle env s e).state.qrGenerated) =
    (match e with
      | .qr q =>
        (match env.toDataURL q with
          | .ok url => ("qr", some url, true)
          | .error _ => (s.connectionStatus, none, s.qrGenerated))
      | .authenticated => ("authenticated", none, false)
      | .ready => ("ready", none, false)
      | .loading_screen _ _ => ("loading", s.lastQrBase64, s.qrGenerated)
      | .auth_failure _ => ("failure", none, false)
      | .disconnected _ => ("disconnected", none, false)
      | .initTimer => (s.connectionStatus, s.lastQrBase64, s.qrGenerated)
      | .initFailed _ => ("error", s.lastQrBase64, s.qrGenerated)) := by
  cases e <;>
    simp [Web.handle, Web.onQr, Web.onAuthenticated, Web.onReady, Web.onLoadingScreen,
      Web.onAuthFailure, Web.onDisconnected, Web.onInitTimer, Web.onInitFailed]
  · split <;> simp
  · split <;> simp

theorem Baileys.qrBranch_cases (env : Env) (s : State) (q : Option String) :
    (Baileys.qrBranch env s q).state = s ∨
    ((Baileys.qrBranch env s q).thrown = none ∧
      (Baileys.qrBranch env s q).state.connectionStatus = "qr" ∧
      (Baileys.qrBranch env s q).state.lastQrBase64 ≠ none ∧
      (Baileys.qrBranch env s q).state.qrGenerated = true) := by
  unfold Baileys.qrBranch
  split
  · exact Or.inl rfl
  · split
    · split
      · right
        simp
      · exact Or.inl rfl
    · exact Or.inl rfl

theorem Baileys.openBranch_cases (env : Env) (s : State) (c : Option String) :
    (Baileys.openBranch env s c).1 = s ∨
    ((Baileys.openBranch env s c).1.connectionStatus = "ready" ∧
      (Baileys.openBranch env s c).1.lastQrBase64 = none ∧
      (Baileys.openBranch env s c).1.qrGenerated = false) := by
  unfold Baileys.openBranch
  split
  · right
    simp
  · exact Or.inl rfl

theorem Baileys.closeBranch_cases (loggedOut : Nat) (env : Env) (s : State)
    (u : Baileys.Update) :
    (Baileys.closeBranch loggedOut env s u).1 = s ∨
    (((Baileys.closeBranch loggedOut env s u).1.connectionStatus = "disconnected" ∨
        (Baileys.closeBranch loggedOut env s u).1.connectionStatus = "logged_out") ∧
      (Baileys.closeBranch loggedOut env s u).1.lastQrBase64 = none ∧
      (Baileys.closeBranch loggedOut env s u).1.qrGenerated = false) := by
  by_cases hc : u.connection = some "close"
  · right
    by_cases hr : u.statusCode = some loggedOut
    · have h := Baileys.closeBranch_logged_out loggedOut env s u hc hr
      exact ⟨Or.inr h.1, h.2.2.1, h.2.2.2⟩
    · have h := Baileys.closeBranch_reconnect loggedOut env s u hc hr
      exact ⟨Or.inl h.1, h.2.2.1, h.2.2.2⟩
  · left
    simp [Baileys.closeBranch, hc]

/-- The session variables after a Baileys connection update: unchanged, or a pairing code on
display with status `qr`, or cleared with status `ready`, `disconnected` or `logged_out`. -/
theorem Baileys.onConnectionUpdate_session (loggedOut : Nat) (env : Env) (s : State)
    (u : Baileys.Update) :
    (Baileys.onConnectionUpdate loggedOut env s u).state = s ∨
    ((Baileys.onConnectionUpdate loggedOut env s u).state.connectionStatus = "qr" ∧
      (Baileys.onConnectionUpdate loggedOut env s u).state.lastQrBase64 ≠ none ∧
      (Baileys.onConnectionUpdate loggedOut env s u).state.qrGenerated = true) ∨
    (((Baileys.onConnectionUpdate loggedOut env s u).state.connectionStatus = "ready" ∨
        (Baileys.onConnectionUpdate loggedOut env s u).state.connectionStatus = "disconnected" ∨
        (Baileys.onConnectionUpdate loggedOut env s u).state.connectionStatus = "logged_out") ∧
      (Baileys.onConnectionUpdate loggedOut env s u).state.lastQrBase64 = none ∧
      (Baileys.onConnectionUpdate loggedOut env s u).state.qrGenerated = false) := by
  unfold Baileys.onConnectionUpdate
  simp only []
  split
  · rename_i e he
    rcases Baileys.qrBranch_cases env s u.qr with h | h
    · exact Or.inl h
    · rw [h.1] at he
      exact absurd he (by simp)
  · rcases Baileys.closeBranch_cases loggedOut env
      (Baileys.openBranch env (Baileys.qrBranch env s u.qr).state u.connection).1 u with hc | hc
    · rw [hc]
      rcases Baileys.openBranch_cases env (Baileys.qrBranch env s u.qr).state u.connection
        with ho | ho
      · rw [ho]
        rcases Baileys.qrBranch_cases env s u.qr with h | h
        · exact Or.inl h
        · exact Or.inr (Or.inl h.2)
      · exact Or.inr (Or.inr ⟨Or.inl ho.1, ho.2⟩)
    · exact Or.inr (Or.inr ⟨Or.inr hc.1, hc.2⟩)

/-! ## C6: the pairing artifact is cleared outside pairing -/

theorem web_step_cleared (env : Env) (s : State) (i : Input Web.Event)
    (h : ClearedOutsidePairing s) : ClearedOutsidePairing (Web.step env s i).state := by
  cases i with
  | request r =>
    obtain ⟨h1, h2, h3⟩ := web_serve_session env s r
    unfold ClearedOutsidePairing at *
    simp only [Web.step]
    rw [h1, h2, h3]
    exact h
  | event e =>
    have hs := Web.handle_session env s e
    unfold ClearedOutsidePairing at *
    simp only [Web.step]
    cases e with
    | qr q =>
      simp only [] at hs
      split at hs
      · simp only [Prod.mk.injEq] at hs
        rw [hs.1]
        intro hmem
        simp at hmem
      · simp only [Prod.mk.injEq] at hs
        rw [hs.1, hs.2.1, hs.2.2]
        intro hmem
        exact ⟨rfl, (h hmem).2⟩
    | authenticated =>
      simp only [Prod.mk.injEq] at hs
      intro _
      exact ⟨hs.2.1, hs.2.2⟩
    | ready =>
      simp only [Prod.mk.injEq] at hs
      intro _
      exact ⟨hs.2.1, hs.2.2⟩
    | loading_screen p m =>
      simp only [Prod.mk.injEq] at hs
      rw [hs.1]
      intro hmem
      simp at hmem
    | auth_failure m =>
      simp only [Prod.mk.injEq] at hs
      intro _
      exact ⟨hs.2.1, hs.2.2⟩
    | disconnected r =>
      simp only [Prod.mk.injEq] at hs
      intro _
      exact ⟨hs.2.1, hs.2.2⟩
    | initTimer =>
      simp only [Prod.mk.injEq] at hs
      rw [hs.1, hs.2.1, hs.2.2]
      exact h
    | initFailed err =>
      simp only [Prod.mk.injEq] at hs
      rw [hs.1]
      intro hmem
      simp at hmem

theorem baileys_step_cleared (loggedOut : Nat) (env : Env) (s : State)
    (i : Input Baileys.Event) (h : ClearedOutsidePairing s) :
    ClearedOutsidePairing (Baileys.step loggedOut env s i).state := by
  cases i with
  | request r =>
    obtain ⟨h1, h2, h3⟩ := baileys_serve_session env s r
    unfold ClearedOutsidePairing at *
    simp only [Baileys.step]
    rw [h1, h2, h3]
    exact h
  | event e =>
    cases e with
    | update u =>
      simp only [Baileys.step, Baileys.handle]
      rcases Baileys.onConnectionUpdate_session loggedOut env s u with hu | hu | hu
      · rw [hu]
        exact h
      · unfold ClearedOutsidePairing
        rw [hu.1]
        intro hmem
        simp at hmem
      · unfold ClearedOutsidePairing
        intro _
        exact hu.2
    | startFailed err =>
      unfold ClearedOutsidePairing
      simp only [Baileys.step, Baileys.handle, Baileys.onStartFailed,
        setStatus_connectionStatus]
      intro hmem
      simp at hmem
    | reconnectFailed err => exact h

/-- C6. The pairing artifact is cleared outside pairing, in both servers. In every state
reached from the initial state by any sequence of backend events (and HTTP requests),
whenever the status is `ready`, `authenticated`, `disconnected` or `logged_out`,
`lastQrBase64` is null and `qrGenerated` is false. In particular, from any state, after a
pairing event whose code renders, `GET /qr` returns status `qr` with the rendered image as
a non-null `qr`; and after a following ready event it returns status `ready` with `qr`
null. In the Baileys server the pairing event is an update carrying a non-empty `qr`, and
the ready event is an update whose `connection` is `open`. -/
theorem artifact_cleared_outside_pairing (loggedOut t0 : Nat)
    (traceW : List (Env × Input Web.Event)) (traceB : List (Env × Input Baileys.Event)) :
    ClearedOutsidePairing (Web.run (State.initial t0) traceW) ∧
    ClearedOutsidePairing (Baileys.run loggedOut (State.initial t0) traceB) ∧
    (∀ (s : State) (env1 env2 env3 env4 : Env) (q url : String),
      env1.toDataURL q = .ok url →
      getQr env2 (Web.handle env1 s (Web.Event.qr q)).state =
        ⟨200, [("status", JVal.str "qr"), ("qr", JVal.str url),
          ("timestamp", JVal.str env2.isoTime)]⟩ ∧
      getQr env4 (Web.handle env3 (Web.handle env1 s (Web.Event.qr q)).state
          Web.Event.ready).state =
        ⟨200, [("status", JVal.str "ready"), ("qr", JVal.null),
          ("timestamp", JVal.str env4.isoTime)]⟩) ∧
    (∀ (s : State) (env1 env2 env3 env4 : Env) (q url : String),
      q ≠ "" → env1.toDataURL q = .ok url →
      getQr env2 (Baileys.onConnectionUpdate loggedOut env1 s ⟨none, some q, none⟩).state =
        ⟨200, [("status", JVal.str "qr"), ("qr", JVal.str url),
          ("timestamp", JVal.str env2.isoTime)]⟩ ∧
      getQr env4 (Baileys.onConnectionUpdate loggedOut env3
          (Baileys.onConnectionUpdate loggedOut env1 s ⟨none, some q, none⟩).state
          ⟨some "open", none, none⟩).state =
        ⟨200, [("status", JVal.str "ready"), ("qr", JVal.null),
          ("timestamp", JVal.str env4.isoTime)]⟩) := by
  have h0 : ClearedOutsidePairing (State.initial t0) := by
    unfold ClearedOutsidePairing
    intro hmem
    simp [State.initial] at hmem
  refine ⟨?_, ?_, ?_, ?_⟩
  · exact web_run_invariant ClearedOutsidePairing (fun _ => true)
      (fun env s i _ h => web_step_cleared env s i h) traceW _ (by simp) h0
  · exact baileys_run_invariant loggedOut ClearedOutsidePairing (fun _ => true)
      (fun env s i _ h => baileys_step_cleared loggedOut env s i h) traceB _ (by simp) h0
  · intro s env1 env2 env3 env4 q url hr
    simp [getQr, Web.handle, Web.onQr, Web.onReady, hr, optStr]
  · intro s env1 env2 env3 env4 q url hq hr
    simp [getQr, Baileys.onConnectionUpdate, Baileys.qrBranch, Baileys.openBranch,
      Baileys.closeBranch, hq, hr, optStr]

/-! ## C5: pairing artifact and the status `qr` -/

/-- C5, as stated, fails in the whatsapp-web.js server, in both directions. After a pairing
event followed by a `loading_screen` event the artifact is non-null while the status is
`loading`; after a pairing event followed by a pairing event whose rendering throws the
status is `qr` while the artifact is null. -/
theorem web_artifact_not_tied_to_qr_status :
    ((Web.run (State.initial 0) Web.pairThenLoad).lastQrBase64 ≠ none ∧
      (Web.run (State.initial 0) Web.pairThenLoad).connectionStatus = "loading") ∧
    ((Web.run (State.initial 0) Web.pairThenRenderFails).connectionStatus = "qr" ∧
      (Web.run (State.initial 0) Web.pairThenRenderFails).lastQrBase64 = none) := by
  decide

theorem Web.step_artifact_status (env : Env) (s : State) (i : Input Web.Event)
    (h : s.lastQrBase64 ≠ none → s.connectionStatus ∈ ["qr", "loading", "error"]) :
    (Web.step env s i).state.lastQrBase64 ≠ none →
      (Web.step env s i).state.connectionStatus ∈ ["qr", "loading", "error"] := by
  cases i with
  | request r =>
    obtain ⟨h1, h2, _⟩ := web_serve_session env s r
    simp only [Web.step]
    rw [h1, h2]
    exact h
  | event e =>
    have hs := Web.handle_session env s e
    simp only [Web.step]
    cases e with
    | qr q =>
      simp only [] at hs
      split at hs <;> simp only [Prod.mk.injEq] at hs <;> rw [hs.1, hs.2.1] <;> simp
    | authenticated =>
      simp only [Prod.mk.injEq] at hs
      rw [hs.2.1]
      simp
    | ready =>
      simp only [Prod.mk.injEq] at hs
      rw [hs.2.1]
      simp
    | loading_screen p m =>
      simp only [Prod.mk.injEq] at hs
      rw [hs.1]
      simp
    | auth_failure m =>
      simp only [Prod.mk.injEq] at hs
      rw [hs.2.1]
      simp
    | disconnected r =>
      simp only [Prod.mk.injEq] at hs
      rw [hs.2.1]
      simp
    | initTimer =>
      simp only [Prod.mk.injEq] at hs
      rw [hs.1, hs.2.1]
      exact h
    | initFailed err =>
      simp only [Prod.mk.injEq] at hs
      rw [hs.1]
      simp

theorem Web.step_qr_status_artifact (env : Env) (s : State) (i : Input Web.Event)
    (hok : (!Web.renderFails (env, i)) = true)
    (h : s.connectionStatus = "qr" → s.lastQrBase64 ≠ none) :
    (Web.step env s i).state.connectionStatus = "qr" →
      (Web.step env s i).state.lastQrBase64 ≠ none := by
  cases i with
  | request r =>
    obtain ⟨h1, h2, _⟩ := web_serve_session env s r
    simp only [Web.step]
    rw [h1, h2]
    exact h
  | event e =>
    have hs := Web.handle_session env s e
    simp only [Web.step]
    cases e with
    | qr q =>
      simp only [] at hs
      simp only [Web.renderFails] at hok
      split at hs
      · simp only [Prod.mk.injEq] at hs
        rw [hs.2.1]
        simp
      · rename_i err herr
        simp [herr] at hok
    | authenticated =>
      simp only [Prod.mk.injEq] at hs
      rw [hs.1]
      simp
    | ready =>
      simp only [Prod.mk.injEq] at hs
      rw [hs.1]
      simp
    | loading_screen p m =>
      simp only [Prod.mk.injEq] at hs
      rw [hs.1]
      simp
    | auth_failure m =>
      simp only [Prod.mk.injEq] at hs
      rw [hs.1]
      simp
    | disconnected r =>
      simp only [Prod.mk.injEq] at hs
      rw [hs.1]
      simp
    | initTimer =>
      simp only [Prod.mk.injEq] at hs
      rw [hs.1, hs.2.1]
      exact h
    | initFailed err =>
      simp only [Prod.mk.injEq] at hs
      rw [hs.1]
      simp

theorem Baileys.step_artifact_iff (loggedOut : Nat) (env : Env) (s : State)
    (i : Input Baileys.Event) (hok : (!Baileys.isStartFailed (env, i)) = true)
    (h : s.lastQrBase64 ≠ none ↔ s.connectionStatus = "qr") :
    (Baileys.step loggedOut env s i).state.lastQrBase64 ≠ none ↔
      (Baileys.step loggedOut env s i).state.connectionStatus = "qr" := by
  cases i with
  | request r =>
    obtain ⟨h1, h2, _⟩ := baileys_serve_session env s r
    simp only [Baileys.step]
    rw [h1, h2]
    exact h
  | event e =>
    cases e with
    | update u =>
      simp only [Baileys.step, Baileys.handle]
      rcases Baileys.onConnectionUpdate_session loggedOut env s u with hu | hu | hu
      · rw [hu]
        exact h
      · exact ⟨fun _ => hu.1, fun _ => hu.2.1⟩
      · rw [hu.2.1]
        rcases hu.1 with h1 | h1 | h1 <;> rw [h1] <;> simp
    | startFailed err => simp [Baileys.isStartFailed] at hok
    | reconnectFailed err => exact h

theorem Baileys.step_no_artifact (loggedOut : Nat) (env : Env) (s : State)
    (i : Input Baileys.Event) (hok : (!Baileys.isUpdate (env, i)) = true)
    (h : s.lastQrBase64 = none ∧ s.connectionStatus ≠ "qr") :
    (Baileys.step loggedOut env s i).state.lastQrBase64 = none ∧
      (Baileys.step loggedOut env s i).state.connectionStatus ≠ "qr" := by
  cases i with
  | request r =>
    obtain ⟨h1, h2, _⟩ := baileys_serve_session env s r
    simp only [Baileys.step]
    rw [h1, h2]
    exact h
  | event e =>
    cases e with
    | update u => simp [Baileys.isUpdate] at hok
    | startFailed err =>
      simp only [Baileys.step, Baileys.handle, Baileys.onStartFailed,
        setStatus_connectionStatus, setStatus_lastQrBase64]
      exact ⟨h.1, by decide⟩
    | reconnectFailed err => exact h

/-- C5, amended. In the Baileys server, in every state reached from the initial state by
any run of backend events and HTTP requests that the server can have (a failure of the first
start is not followed by connection updates), `lastQrBase64` is non-null if and only if the
status is `qr`. In the whatsapp-web.js server, in every state reached from the initial
state by any run of events and HTTP requests, a non-null `lastQrBase64` implies that the
status is `qr`, `loading` or `error` (a `loading_screen` event and an initialization failure
change the status and leave the artifact in place); and the status `qr` implies a non-null
`lastQrBase64` provided no rendering of a pairing code has thrown in the run. -/
theorem artifact_and_qr_status (loggedOut t0 : Nat)
    (traceB : List (Env × Input Baileys.Event)) (traceW : List (Env × Input Web.Event)) :
    (Baileys.startFailsAlone traceB = true →
      ((Baileys.run loggedOut (State.initial t0) traceB).lastQrBase64 ≠ none ↔
        (Baileys.run loggedOut (State.initial t0) traceB).connectionStatus = "qr")) ∧
    ((Web.run (State.initial t0) traceW).lastQrBase64 ≠ none →
      (Web.run (State.initial t0) traceW).connectionStatus ∈ ["qr", "loading", "error"]) ∧
    (traceW.all (fun x => !Web.renderFails x) = true →
      (Web.run (State.initial t0) traceW).connectionStatus = "qr" →
      (Web.run (State.initial t0) traceW).lastQrBase64 ≠ none) := by
  refine ⟨?_, ?_, ?_⟩
  · intro hv
    simp only [Baileys.startFailsAlone, Bool.or_eq_true] at hv
    rcases hv with hv | hv
    · exact baileys_run_invariant loggedOut
        (fun s => s.lastQrBase64 ≠ none ↔ s.connectionStatus = "qr")
        (fun x => !Baileys.isStartFailed x)
        (fun env s i hok h => Baileys.step_artifact_iff loggedOut env s i hok h)
        traceB _ hv (by simp [State.initial])
    · have h := baileys_run_invariant loggedOut
        (fun s => s.lastQrBase64 = none ∧ s.connectionStatus ≠ "qr")
        (fun x => !Baileys.isUpdate x)
        (fun env s i hok h => Baileys.step_no_artifact loggedOut env s i hok h)
        traceB (State.initial t0) hv (by simp [State.initial])
      exact ⟨fun hne => absurd h.1 hne, fun hq => absurd hq h.2⟩
  · exact web_run_invariant
      (fun s => s.lastQrBase64 ≠ none → s.connectionStatus ∈ ["qr", "loading", "error"])
      (fun _ => true) (fun env s i _ h => Web.step_artifact_status env s i h)
      traceW _ (by simp) (by simp [State.initial])
  · intro hv
    exact web_run_invariant
      (fun s => s.connectionStatus = "qr" → s.lastQrBase64 ≠ none)
      (fun x => !Web.renderFails x)
      (fun env s i hok h => Web.step_qr_status_artifact env s i hok h)
      traceW _ hv (by simp [State.initial])

/-- The amended C5 at concrete runs: in the Baileys server, after a pairing update the
artifact is non-null and the status is `qr`, and after the connection opens the artifact
is null and the status is `ready`. -/
theorem artifact_and_qr_status_witness :
    ((Baileys.run 401 (State.initial 0) (Baileys.pairThenOpen.take 2)).lastQrBase64 ≠ none ∧
      (Baileys.run 401 (State.initial 0) (Baileys.pairThenOpen.take 2)).connectionStatus
        = "qr") ∧
    ((Baileys.run 401 (State.initial 0) Baileys.pairThenOpen).lastQrBase64 = none ∧
      (Baileys.run 401 (State.initial 0) Baileys.pairThenOpen).connectionStatus = "ready") ∧
    ((Web.run (State.initial 0) Web.pairThenLoad).connectionStatus
      ∈ ["qr", "loading", "error"]) := by
  have h1 := (artifact_and_qr_status 401 0 (Baileys.pairThenOpen.take 2) Web.pairThenLoad).1
    (by decide)
  have h2 := (artifact_and_qr_status 401 0 Baileys.pairThenOpen Web.pairThenLoad).1
    (by decide)
  have h3 := (artifact_and_qr_status 401 0 Baileys.pairThenOpen Web.pairThenLoad).2.1
    (by decide)
  have hq : (Baileys.run 401 (State.initial 0) (Baileys.pairThenOpen.take 2)).connectionStatus
      = "qr" := by decide
  have hr : (Baileys.run 401 (State.initial 0) Baileys.pairThenOpen).connectionStatus
      = "ready" := by decide
  refine ⟨⟨h1.2 hq, hq⟩, ⟨?_, hr⟩, h3⟩
  by_contra hne
  have := h2.1 hne
  rw [hr] at this
  exact absurd this (by decide)

/-! ## The loading variables -/

/-- The loading variables after a whatsapp-web.js event, case by case. -/
theorem web_handle_loading (env : Env) (s : State) (e : Web.Event) :
    ((Web.handle env s e).state.loadingSince, (Web.handle env s e).state.loadingPercent,
      (Web.handle env s e).state.loadingMessage) =
    (match e with
      | .ready => (none, s.loadingPercent, s.loadingMessage)
      | .loading_screen p m =>
        (if truthyTime s.loadingSince then s.loadingSince else some env.now, p, m)
      | _ => (s.loadingSince, s.loadingPercent, s.loadingMessage)) := by
  cases e with
  | qr q =>
    simp only [Web.handle, Web.onQr]
    split <;> simp
  | authenticated => simp [Web.handle, Web.onAuthenticated]
  | ready => simp [Web.handle, Web.onReady]
  | loading_screen p m =>
    simp only [Web.handle, Web.onLoadingScreen, setStatus_loadingSince,
      setStatus_loadingPercent, setStatus_loadingMessage, Prod.mk.injEq, and_true]
    cases truthyTime s.loadingSince <;> simp
  | auth_failure m => simp [Web.handle, Web.onAuthFailure]
  | disconnected r => simp [Web.handle, Web.onDisconnected]
  | initTimer =>
    simp only [Web.handle, Web.onInitTimer]
    split <;> simp
  | initFailed err => simp [Web.handle, Web.onInitFailed]

theorem sendGate_loading (s : State) (b : Body) :
    (sendGate s b).1.loadingSince = s.loadingSince ∧
    (sendGate s b).1.loadingPercent = s.loadingPercent ∧
    (sendGate s b).1.loadingMessage = s.loadingMessage := by
  unfold sendGate
  repeat (first | exact ⟨rfl, rfl, rfl⟩ | split)

theorem web_serve_loading (env : Env) (s : State) (r : Request) :
    (Web.serve env s r).state.loadingSince = s.loadingSince ∧
    (Web.serve env s r).state.loadingPercent = s.loadingPercent ∧
    (Web.serve env s r).state.loadingMessage = s.loadingMessage := by
  cases r with
  | getQr => exact ⟨rfl, rfl, rfl⟩
  | getHealth => exact ⟨rfl, rfl, rfl⟩
  | checkNumber b => simp [Web.serve, web_checkNumber_state]
  | send b =>
    simp only [Web.serve, web_send_state]
    exact sendGate_loading s b

theorem baileys_serve_loading (env : Env) (s : State) (r : Request) :
    (Baileys.serve env s r).state.loadingSince = s.loadingSince ∧
    (Baileys.serve env s r).state.loadingPercent = s.loadingPercent ∧
    (Baileys.serve env s r).state.loadingMessage = s.loadingMessage := by
  cases r with
  | getQr => exact ⟨rfl, rfl, rfl⟩
  | getHealth => exact ⟨rfl, rfl, rfl⟩
  | checkNumber b => simp [Baileys.serve, baileys_checkNumber_state]
  | send b =>
    simp only [Baileys.serve, baileys_send_state]
    exact sendGate_loading s b

theorem Baileys.qrBranch_loading (env : Env) (s : State) (q : Option String) :
    (Baileys.qrBranch env s q).state.loadingSince = s.loadingSince ∧
    (Baileys.qrBranch env s q).state.loadingPercent = s.loadingPercent ∧
    (Baileys.qrBranch env s q).state.loadingMessage = s.loadingMessage := by
  unfold Baileys.qrBranch
  split
  · exact ⟨rfl, rfl, rfl⟩
  · split
    · split <;> simp
    · exact ⟨rfl, rfl, rfl⟩

theorem Baileys.openBranch_loading (env : Env) (s : State) (c : Option String) :
    ((Baileys.openBranch env s c).1.loadingSince = s.loadingSince ∨
      (Baileys.openBranch env s c).1.loadingSince = none) ∧
    (c = some "open" → (Baileys.openBranch env s c).1.loadingSince = none) ∧
    (Baileys.openBranch env s c).1.loadingPercent = s.loadingPercent ∧
    (Baileys.openBranch env s c).1.loadingMessage = s.loadingMessage := by
  unfold Baileys.openBranch
  split <;> simp_all

theorem Baileys.closeBranch_loading (loggedOut : Nat) (env : Env) (s : State)
    (u : Baileys.Update) :
    (Baileys.closeBranch loggedOut env s u).1.loadingSince = s.loadingSince ∧
    (Baileys.closeBranch loggedOut env s u).1.loadingPercent = s.loadingPercent ∧
    (Baileys.closeBranch loggedOut env s u).1.loadingMessage = s.loadingMessage := by
  unfold Baileys.closeBranch
  split
  · simp only []
    split <;> simp
  · exact ⟨rfl, rfl, rfl⟩

/-- The loading variables after a Baileys event: `loadingSince` is kept or set to null, the
other two are kept. -/
theorem baileys_handle_loading (loggedOut : Nat) (env : Env) (s : State)
    (e : Baileys.Event) :
    ((Baileys.handle loggedOut env s e).state.loadingSince = s.loadingSince ∨
      (Baileys.handle loggedOut env s e).state.loadingSince = none) ∧
    (Baileys.handle loggedOut env s e).state.loadingPercent = s.loadingPercent ∧
    (Baileys.handle loggedOut env s e).state.loadingMessage = s.loadingMessage := by
  cases e with
  | update u =>
    simp only [Baileys.handle, Baileys.onConnectionUpdate]
    obtain ⟨q1, q2, q3⟩ := Baileys.qrBranch_loading env s u.qr
    split
    · exact ⟨Or.inl q1, q2, q3⟩
    · obtain ⟨o1, _, o2, o3⟩ :=
        Baileys.openBranch_loading env (Baileys.qrBranch env s u.qr).state u.connection
      obtain ⟨c1, c2, c3⟩ := Baileys.closeBranch_loading loggedOut env
        (Baileys.openBranch env (Baileys.qrBranch env s u.qr).state u.connection).1 u
      refine ⟨?_, by rw [c2, o2, q2], by rw [c3, o3, q3]⟩
      rw [c1]
      rcases o1 with o1 | o1
      · exact Or.inl (by rw [o1, q1])
      · exact Or.inr o1
  | startFailed err => simp [Baileys.handle, Baileys.onStartFailed]
  | reconnectFailed err => simp [Baileys.handle, Baileys.onReconnectFailed]

/-- In the Baileys server nothing ever sets the loading variables. -/
theorem Baileys.step_loading_null (loggedOut : Nat) (env : Env) (s : State)
    (i : Input Baileys.Event)
    (h : s.loadingSince = none ∧ s.loadingPercent = JVal.null ∧ s.loadingMessage = JVal.null) :
    (Baileys.step loggedOut env s i).state.loadingSince = none ∧
    (Baileys.step loggedOut env s i).state.loadingPercent = JVal.null ∧
    (Baileys.step loggedOut env s i).state.loadingMessage = JVal.null := by
  cases i with
  | request r =>
    obtain ⟨h1, h2, h3⟩ := baileys_serve_loading env s r
    simp only [Baileys.step]
    rw [h1, h2, h3]
    exact h
  | event e =>
    obtain ⟨h1, h2, h3⟩ := baileys_handle_loading loggedOut env s e
    simp only [Baileys.step]
    rw [h2, h3]
    refine ⟨?_, h.2.1, h.2.2⟩
    rcases h1 with h1 | h1
    · rw [h1]
      exact h.1
    · exact h1

/-- In the whatsapp-web.js server `loadingSince` is null while the status is `ready` or
`initializing`. -/
theorem Web.step_ready_not_loading (env : Env) (s : State) (i : Input Web.Event)
    (h : s.connectionStatus ∈ ["ready", "initializing"] → s.loadingSince = none) :
    (Web.step env s i).state.connectionStatus ∈ ["ready", "initializing"] →
      (Web.step env s i).state.loadingSince = none := by
  cases i with
  | request r =>
    obtain ⟨h1, _, _⟩ := web_serve_session env s r
    obtain ⟨h2, _, _⟩ := web_serve_loading env s r
    simp only [Web.step]
    rw [h1, h2]
    exact h
  | event e =>
    have hs := Web.handle_session env s e
    have hl := web_handle_loading env s e
    simp only [Web.step]
    cases e with
    | qr q =>
      simp only [Prod.mk.injEq] at hl
      simp only [] at hs
      split at hs
      · simp only [Prod.mk.injEq] at hs
        rw [hs.1]
        intro hmem
        simp at hmem
      · simp only [Prod.mk.injEq] at hs
        rw [hs.1, hl.1]
        exact h
    | authenticated =>
      simp only [Prod.mk.injEq] at hs
      rw [hs.1]
      intro hmem
      simp at hmem
    | ready =>
      simp only [Prod.mk.injEq] at hl
      intro _
      exact hl.1
    | loading_screen p m =>
      simp only [Prod.mk.injEq] at hs
      rw [hs.1]
      intro hmem
      simp at hmem
    | auth_failure m =>
      simp only [Prod.mk.injEq] at hs
      rw [hs.1]
      intro hmem
      simp at hmem
    | disconnected r =>
      simp only [Prod.mk.injEq] at hs
      rw [hs.1]
      intro hmem
      simp at hmem
    | initTimer =>
      simp only [Prod.mk.injEq] at hs hl
      rw [hs.1, hl.1]
      exact h
    | initFailed err =>
      simp only [Prod.mk.injEq] at hs
      rw [hs.1]
      intro hmem
      simp at hmem

theorem getHealth_fields (env : Env) (s : State) :
    (getHealth env s).field "loadingDuration"
      = some (JVal.ofInt (loadingDuration env.now s.loadingSince)) ∧
    (getHealth env s).field "loadingPercent" = some s.loadingPercent ∧
    (getHealth env s).field "loadingMessage" = some s.loadingMessage ∧
    (getHealth env s).field "qrAvailable" = some (JVal.bool s.qrGenerated) := by
  refine ⟨?_, ?_, ?_, ?_⟩ <;> simp [getHealth, Response.field, List.lookup]

theorem loadingDuration_unset (now : Nat) : loadingDuration now none = 0 := by
  simp [loadingDuration, truthyTime]

theorem loadingDuration_set (now t : Nat) (ht : t ≠ 0) :
    loadingDuration now (some t) = (now : Int) - (t : Int) := by
  simp [loadingDuration, truthyTime, ht]

theorem ofInt_zero : JVal.ofInt 0 = JVal.num "0" := by
  decide

/-- The loading arguments a run of the whatsapp-web.js server ends with are those of its
last `loading_screen` event, or those of the state before when it has none. -/
theorem web_run_lastLoading (trace : List (Env × Input Web.Event)) (s : State) :
    ((Web.run s trace).loadingPercent, (Web.run s trace).loadingMessage) =
      Web.lastLoading (s.loadingPercent, s.loadingMessage) trace := by
  induction trace generalizing s with
  | nil => rfl
  | cons x rest ih =>
    obtain ⟨env, i⟩ := x
    simp only [Web.run]
    rw [ih]
    cases i with
    | request r =>
      obtain ⟨_, h2, h3⟩ := web_serve_loading env s r
      simp only [Web.step, Web.lastLoading]
      rw [h2, h3]
    | event e =>
      have hl := web_handle_loading env s e
      simp only [Web.step]
      cases e <;> simp only [Prod.mk.injEq] at hl <;> simp only [Web.lastLoading] <;>
        rw [hl.2.1, hl.2.2]

/-- In the whatsapp-web.js server a set `loadingSince` keeps its value through every input
other than the ready event. -/
theorem web_step_keeps_loadingSince (env : Env) (s : State) (i : Input Web.Event)
    (hset : truthyTime s.loadingSince = true) (hi : (!Web.isReady (env, i)) = true) :
    (Web.step env s i).state.loadingSince = s.loadingSince := by
  cases i with
  | request r => exact (web_serve_loading env s r).1
  | event e =>
    have hl := web_handle_loading env s e
    simp only [Web.step]
    cases e with
    | ready => simp [Web.isReady] at hi
    | loading_screen p m =>
      simp only [Prod.mk.injEq] at hl
      rw [hl.1]
      simp [hset]
    | qr q =>
      simp only [Prod.mk.injEq] at hl
      exact hl.1
    | authenticated =>
      simp only [Prod.mk.injEq] at hl
      exact hl.1
    | auth_failure m =>
      simp only [Prod.mk.injEq] at hl
      exact hl.1
    | disconnected r =>
      simp only [Prod.mk.injEq] at hl
      exact hl.1
    | initTimer =>
      simp only [Prod.mk.injEq] at hl
      exact hl.1
    | initFailed err =>
      simp only [Prod.mk.injEq] at hl
      exact hl.1

theorem web_run_keeps_loadingSince (trace : List (Env × Input Web.Event)) (s : State)
    (hset : truthyTime s.loadingSince = true)
    (hall : trace.all (fun x => !Web.isReady x) = true) :
    (Web.run s trace).loadingSince = s.loadingSince := by
  induction trace generalizing s with
  | nil => rfl
  | cons x rest ih =>
    obtain ⟨env, i⟩ := x
    simp only [List.all_cons, Bool.and_eq_true] at hall
    have h1 := web_step_keeps_loadingSince env s i hset hall.1
    simp only [Web.run]
    rw [ih _ (by rw [h1]; exact hset) hall.2, h1]

/-! ## C11: what the ready event clears -/

/-- C11, as stated, fails: the ready handler does not clear `loadingPercent` and
`loadingMessage`. In the whatsapp-web.js server, after a `loading_screen(50, "WhatsApp")`
event followed by a ready event, both still hold the values of the loading event, and
`GET /health` reports them. -/
theorem ready_keeps_loading_percent_and_message :
    (Web.run (State.initial 0) Web.loadThenReady).connectionStatus = "ready" ∧
    (Web.run (State.initial 0) Web.loadThenReady).loadingPercent = JVal.num "50" ∧
    (Web.run (State.initial 0) Web.loadThenReady).loadingMessage = JVal.str "WhatsApp" ∧
    (getHealth Env.later (Web.run (State.initial 0) Web.loadThenReady)).field "loadingPercent"
      = some (JVal.num "50") ∧
    (getHealth Env.later (Web.run (State.initial 0) Web.loadThenReady)).field "loadingMessage"
      = some (JVal.str "WhatsApp") := by
  decide

/-- C11, amended. For every prior state, after the session-ready event has been handled
(the `ready` event of the whatsapp-web.js server, or an update of the Baileys server whose
`connection` is `open` and whose pairing block does not throw), `loadingSince` is null, so
`GET /health` reports `loadingDuration` 0; `loadingPercent` and `loadingMessage` are left
as they were, and `GET /health` reports those values. In the whatsapp-web.js server, in
every state reached from the initial state, `loadingPercent` and `loadingMessage` are the
arguments of the last `loading_screen` event handled, or null when there was none. In the
Baileys server nothing assigns the loading variables, so in every state reached from the
initial state all three are null. -/
theorem ready_clears_loadingSince_only (loggedOut t0 : Nat) (env env2 : Env) (s : State)
    (u : Baileys.Update) (traceB : List (Env × Input Baileys.Event))
    (traceW : List (Env × Input Web.Event)) :
    ((Web.handle env s Web.Event.ready).state.loadingSince = none ∧
      (Web.handle env s Web.Event.ready).state.loadingPercent = s.loadingPercent ∧
      (Web.handle env s Web.Event.ready).state.loadingMessage = s.loadingMessage ∧
      (getHealth env2 (Web.handle env s Web.Event.ready).state).field "loadingDuration"
        = some (JVal.num "0") ∧
      (getHealth env2 (Web.handle env s Web.Event.ready).state).field "loadingPercent"
        = some s.loadingPercent ∧
      (getHealth env2 (Web.handle env s Web.Event.ready).state).field "loadingMessage"
        = some s.loadingMessage) ∧
    (u.connection = some "open" → (Baileys.qrBranch env s u.qr).thrown = none →
      (Baileys.onConnectionUpdate loggedOut env s u).state.loadingSince = none ∧
      (Baileys.onConnectionUpdate loggedOut env s u).state.loadingPercent = s.loadingPercent ∧
      (Baileys.onConnectionUpdate loggedOut env s u).state.loadingMessage = s.loadingMessage ∧
      (getHealth env2 (Baileys.onConnectionUpdate loggedOut env s u).state).field
        "loadingDuration" = some (JVal.num "0")) ∧
    (((Web.run (State.initial t0) traceW).loadingPercent,
        (Web.run (State.initial t0) traceW).loadingMessage) =
      Web.lastLoading (JVal.null, JVal.null) traceW) ∧
    ((Baileys.run loggedOut (State.initial t0) traceB).loadingSince = none ∧
      (Baileys.run loggedOut (State.initial t0) traceB).loadingPercent = JVal.null ∧
      (Baileys.run loggedOut (State.initial t0) traceB).loadingMessage = JVal.null) := by
  refine ⟨?_, ?_, ?_, ?_⟩
  · have hl := web_handle_loading env s Web.Event.ready
    simp only [Prod.mk.injEq] at hl
    obtain ⟨h1, h2, h3⟩ := hl
    obtain ⟨g1, g2, g3, _⟩ := getHealth_fields env2 (Web.handle env s Web.Event.ready).state
    refine ⟨h1, h2, h3, ?_, ?_, ?_⟩
    · rw [g1, h1, loadingDuration_unset, ofInt_zero]
    · rw [g2, h2]
    · rw [g3, h3]
  · intro hc hq
    obtain ⟨q1, q2, q3⟩ := Baileys.qrBranch_loading env s u.qr
    obtain ⟨_, o1, o2, o3⟩ :=
      Baileys.openBranch_loading env (Baileys.qrBranch env s u.qr).state u.connection
    obtain ⟨c1, c2, c3⟩ := Baileys.closeBranch_loading loggedOut env
      (Baileys.openBranch env (Baileys.qrBranch env s u.qr).state u.connection).1 u
    have hs : (Baileys.onConnectionUpdate loggedOut env s u).state =
        (Baileys.closeBranch loggedOut env
          (Baileys.openBranch env (Baileys.qrBranch env s u.qr).state u.connection).1 u).1 := by
      simp [Baileys.onConnectionUpdate, hq]
    have h1 : (Baileys.onConnectionUpdate loggedOut env s u).state.loadingSince = none := by
      rw [hs, c1]
      exact o1 hc
    refine ⟨h1, by rw [hs, c2, o2, q2], by rw [hs, c3, o3, q3], ?_⟩
    rw [(getHealth_fields env2 _).1, h1, loadingDuration_unset, ofInt_zero]
  · exact web_run_lastLoading traceW (State.initial t0)
  · exact baileys_run_invariant loggedOut
      (fun s => s.loadingSince = none ∧ s.loadingPercent = JVal.null ∧
        s.loadingMessage = JVal.null)
      (fun _ => true) (fun env s i _ h => Baileys.step_loading_null loggedOut env s i h)
      traceB (State.initial t0) (by simp) (by simp [State.initial])

/-- The amended C11 at a concrete input: a Baileys update that opens the connection, from a
state with a pairing code on display. -/
theorem ready_clears_loadingSince_only_witness :
    (Baileys.onConnectionUpdate 401 Env.sample State.pairing
      ⟨some "open", none, none⟩).state.loadingSince = none ∧
    (getHealth Env.later (Baileys.onConnectionUpdate 401 Env.sample State.pairing
      ⟨some "open", none, none⟩).state).field "loadingDuration" = some (JVal.num "0") := by
  have h := (ready_clears_loadingSince_only 401 0 Env.sample Env.later State.pairing
    ⟨some "open", none, none⟩ [] []).2.1 rfl rfl
  exact ⟨h.1, h.2.2.2⟩

/-! ## C12: loading duration reported by `GET /health` -/

/-- C12, as stated, fails in the whatsapp-web.js server: `loadingSince` is cleared by the
ready handler only. After a `loading_screen` event at time 1000 followed by an
`authenticated` event, the status is `authenticated`, not `loading`, and `GET /health` at
time 2500 reports `loadingDuration` 1500. -/
theorem health_duration_nonzero_when_not_loading :
    (Web.run (State.initial 0) Web.loadThenAuthenticated).connectionStatus
      = "authenticated" ∧
    (Web.run (State.initial 0) Web.loadThenAuthenticated).connectionStatus ≠ "loading" ∧
    (getHealth Env.later (Web.run (State.initial 0) Web.loadThenAuthenticated)).field
      "loadingDuration" = some (JVal.num "1500") := by
  decide

/-- C12, amended. In every state, `GET /health` returns `loadingDuration` 0 when
`loadingSince` is null and the current time minus `loadingSince` when it is set (to a
non-zero timestamp). In the Baileys server `loadingSince` is null in every state reached
from the initial state, so `loadingDuration` is always 0. In the whatsapp-web.js server
`loadingSince` is null, and `loadingDuration` 0, in every reached state whose status is
`ready` or `initializing`; a `loading_screen` event handled at a non-zero clock reading
leaves `loadingSince` set; and once set, `loadingSince` keeps its value through every event
other than ready and every HTTP request, whatever the status becomes, so that `GET /health`
keeps reporting the current time minus that value. -/
theorem health_loading_duration (loggedOut t0 : Nat) (env : Env) (s : State)
    (traceB : List (Env × Input Baileys.Event)) (traceW : List (Env × Input Web.Event)) :
    ((getHealth env s).field "loadingDuration"
        = some (JVal.ofInt (loadingDuration env.now s.loadingSince)) ∧
      (s.loadingSince = none → (getHealth env s).field "loadingDuration"
        = some (JVal.num "0")) ∧
      (∀ t : Nat, s.loadingSince = some t → t ≠ 0 →
        (getHealth env s).field "loadingDuration"
          = some (JVal.ofInt ((env.now : Int) - (t : Int))))) ∧
    (getHealth env (Baileys.run loggedOut (State.initial t0) traceB)).field "loadingDuration"
      = some (JVal.num "0") ∧
    ((Web.run (State.initial t0) traceW).connectionStatus ∈ ["ready", "initializing"] →
      (getHealth env (Web.run (State.initial t0) traceW)).field "loadingDuration"
        = some (JVal.num "0")) ∧
    (∀ (envL : Env) (p m : JVal), envL.now ≠ 0 →
      truthyTime (Web.handle envL s (Web.Event.loading_screen p m)).state.loadingSince
        = true) ∧
    (∀ t : Nat, s.loadingSince = some t → t ≠ 0 →
      traceW.all (fun x => !Web.isReady x) = true →
      (Web.run s traceW).loadingSince = some t ∧
      (getHealth env (Web.run s traceW)).field "loadingDuration"
        = some (JVal.ofInt ((env.now : Int) - (t : Int)))) := by
  refine ⟨⟨(getHealth_fields env s).1, ?_, ?_⟩, ?_, ?_, ?_, ?_⟩
  · intro h
    rw [(getHealth_fields env s).1, h, loadingDuration_unset, ofInt_zero]
  · intro t h ht
    rw [(getHealth_fields env s).1, h, loadingDuration_set env.now t ht]
  · have h := baileys_run_invariant loggedOut
      (fun s => s.loadingSince = none ∧ s.loadingPercent = JVal.null ∧
        s.loadingMessage = JVal.null)
      (fun _ => true) (fun env s i _ h => Baileys.step_loading_null loggedOut env s i h)
      traceB (State.initial t0) (by simp) (by simp [State.initial])
    rw [(getHealth_fields env _).1, h.1, loadingDuration_unset, ofInt_zero]
  · intro hst
    have h := web_run_invariant
      (fun s => s.connectionStatus ∈ ["ready", "initializing"] → s.loadingSince = none)
      (fun _ => true) (fun env s i _ h => Web.step_ready_not_loading env s i h)
      traceW (State.initial t0) (by simp) (by simp [State.initial])
    rw [(getHealth_fields env _).1, h hst, loadingDuration_unset, ofInt_zero]
  · intro envL p m hnow
    have hl := web_handle_loading envL s (Web.Event.loading_screen p m)
    simp only [Prod.mk.injEq] at hl
    rw [hl.1]
    cases hs : truthyTime s.loadingSince
    · simp [truthyTime, hnow]
    · simpa using hs
  · intro t h ht hall
    have hset : truthyTime s.loadingSince = true := by simp [h, truthyTime, ht]
    have hk := web_run_keeps_loadingSince traceW s hset hall
    rw [h] at hk
    refine ⟨hk, ?_⟩
    rw [(getHealth_fields env _).1, hk, loadingDuration_set env.now t ht]

/-- The amended C12 at a concrete run of the whatsapp-web.js server: after loading and
ready, the status is `ready` and `GET /health` reports `loadingDuration` 0. -/
theorem health_loading_duration_witness :
    (Web.run (State.initial 0) Web.loadThenReady).connectionStatus = "ready" ∧
    (getHealth Env.later (Web.run (State.initial 0) Web.loadThenReady)).field
      "loadingDuration" = some (JVal.num "0") := by
  have h := (health_loading_duration 401 0 Env.later (State.initial 0) []
    Web.loadThenReady).2.2.1 (by decide)
  exact ⟨by decide, h⟩

/-! ## C13: a pairing code whose rendering throws -/

/-- In the whatsapp-web.js server a failed render is contained: the handler of the pairing
event completes, `lastQrBase64` is null afterwards, and the status and `lastStateChange`
are as before. -/
theorem web_render_failure_contained (env : Env) (s : State) (q e : String)
    (h : env.toDataURL q = .error e) :
    (Web.handle env s (Web.Event.qr q)).thrown = none ∧
    (Web.handle env s (Web.Event.qr q)).state.lastQrBase64 = none ∧
    (Web.handle env s (Web.Event.qr q)).state.connectionStatus = s.connectionStatus ∧
    (Web.handle env s (Web.Event.qr q)).state.lastStateChange = s.lastStateChange := by
  simp [Web.handle, Web.onQr, h]

/-- In the Baileys server a failed render leaves the handler as an exception, before any
variable is written: the state is exactly as before. -/
theorem baileys_render_failure_propagates (loggedOut : Nat) (env : Env) (s : State)
    (u : Baileys.Update) (q e : String) (hq : u.qr = some q) (hne : q ≠ "")
    (h : env.toDataURL q = .error e) :
    (Baileys.onConnectionUpdate loggedOut env s u).thrown = some e ∧
    (Baileys.onConnectionUpdate loggedOut env s u).state = s := by
  simp [Baileys.onConnectionUpdate, Baileys.qrBranch, hq, hne, h]

/-- C13, the Baileys server at the failing input. With a pairing code on display, an update
carrying a new pairing code whose rendering throws is handled as follows: the exception
`render failed` leaves the handler, and `lastQrBase64` still holds the earlier image. The
claim asks for a handler that completes and a null artifact, which is what the
whatsapp-web.js server does. -/
theorem baileys_render_failure_escapes :
    (Baileys.onConnectionUpdate 401 Env.failing State.pairing Baileys.Update.pairing).thrown
      = some "render failed" ∧
    (Baileys.onConnectionUpdate 401 Env.failing State.pairing
      Baileys.Update.pairing).state.lastQrBase64 = some "data:image/png;base64,AAAA" ∧
    (Baileys.onConnectionUpdate 401 Env.failing State.pairing
      Baileys.Update.pairing).state.lastQrBase64 ≠ none ∧
    (Web.handle Env.failing State.pairing (Web.Event.qr "2@def")).thrown = none ∧
    (Web.handle Env.failing State.pairing (Web.Event.qr "2@def")).state.lastQrBase64
      = none := by
  decide

/-! ## C14: a failing initialization -/

/-- The two `catch` callbacks of an initialization set the status `error` and start no
further initialization: the one of `client.initialize()` in the whatsapp-web.js server and
the one of the module-level `startWhatsApp()` in the Baileys server. -/
theorem init_failure_caught_sets_error (loggedOut : Nat) (env : Env) (s : State)
    (err : String) :
    ((Web.handle env s (Web.Event.initFailed err)).state.connectionStatus = "error" ∧
      (∀ e ∈ (Web.handle env s (Web.Event.initFailed err)).effects, e.isStart = false)) ∧
    ((Baileys.handle loggedOut env s (Baileys.Event.startFailed err)).state.connectionStatus
        = "error" ∧
      (∀ e ∈ (Baileys.handle loggedOut env s (Baileys.Event.startFailed err)).effects,
        e.isStart = false)) := by
  refine ⟨⟨?_, ?_⟩, ?_, ?_⟩
  · simp [Web.handle, Web.onInitFailed]
  · intro e he
    simp only [Web.handle, Web.onInitFailed, List.mem_cons] at he
    rcases he with rfl | he
    · rfl
    · exact (setStatus_effects_not_start _ _ _ e he).1
  · simp [Baileys.handle, Baileys.onStartFailed]
  · intro e he
    simp only [Baileys.handle, Baileys.onStartFailed, List.mem_cons] at he
    rcases he with rfl | he
    · rfl
    · exact (setStatus_effects_not_start _ _ _ e he).1

/-- C14, the Baileys server at the failing input. From a ready session, a close with reason
428 calls `startWhatsApp()` once (line 75, no `catch`); when that call fails nothing in the
server runs: the rejection stays unhandled and the status stays `disconnected`. The claim
asks for the status `error`, which is what the module-level call of line 83 gets from its
`catch`. -/
theorem baileys_reconnect_failure_not_error :
    (Baileys.onConnectionUpdate 401 Env.sample State.ready
      Baileys.Update.closed).effects.count Effect.startWhatsApp = 1 ∧
    (Baileys.run 401 State.ready Baileys.closeThenReconnectFails).connectionStatus
      = "disconnected" ∧
    (Baileys.run 401 State.ready Baileys.closeThenReconnectFails).connectionStatus
      ≠ "error" ∧
    (Baileys.handle 401 Env.sample
      (Baileys.onConnectionUpdate 401 Env.sample State.ready Baileys.Update.closed).state
      (Baileys.Event.reconnectFailed "auth state unreadable")).thrown
      = some "auth state unreadable" ∧
    (Baileys.handle 401 Env.sample (State.initial 0)
      (Baileys.Event.startFailed "auth state unreadable")).state.connectionStatus
      = "error" := by
  decide

/-! ## C18: the pairing-available flag -/

/-- Where the flag and the artifact do agree. In the Baileys server, in every state reached
from the initial state, `qrGenerated` is true if and only if `lastQrBase64` is non-null. In
the whatsapp-web.js server, in every state reached from the initial state, a non-null
`lastQrBase64` implies that `qrGenerated` is true. -/
theorem flag_follows_artifact (loggedOut t0 : Nat)
    (traceB : List (Env × Input Baileys.Event)) (traceW : List (Env × Input Web.Event)) :
    ((Baileys.run loggedOut (State.initial t0) traceB).qrGenerated = true ↔
      (Baileys.run loggedOut (State.initial t0) traceB).lastQrBase64 ≠ none) ∧
    ((Web.run (State.initial t0) traceW).lastQrBase64 ≠ none →
      (Web.run (State.initial t0) traceW).qrGenerated = true) := by
  constructor
  · refine baileys_run_invariant loggedOut
      (fun s => s.qrGenerated = true ↔ s.lastQrBase64 ≠ none) (fun _ => true) ?_
      traceB (State.initial t0) (by simp) (by simp [State.initial])
    intro env s i _ h
    cases i with
    | request r =>
      obtain ⟨_, h2, h3⟩ := baileys_serve_session env s r
      simp only [Baileys.step]
      rw [h2, h3]
      exact h
    | event e =>
      cases e with
      | update u =>
        simp only [Baileys.step, Baileys.handle]
        rcases Baileys.onConnectionUpdate_session loggedOut env s u with hu | hu | hu
        · rw [hu]
          exact h
        · exact ⟨fun _ => hu.2.1, fun _ => hu.2.2⟩
        · rw [hu.2.1, hu.2.2]
          simp
      | startFailed err =>
        simpa [Baileys.step, Baileys.handle, Baileys.onStartFailed] using h
      | reconnectFailed err => exact h
  · refine web_run_invariant
      (fun s => s.lastQrBase64 ≠ none → s.qrGenerated = true) (fun _ => true) ?_
      traceW (State.initial t0) (by simp) (by simp [State.initial])
    intro env s i _ h
    cases i with
    | request r =>
      obtain ⟨_, h2, h3⟩ := web_serve_session env s r
      simp only [Web.step]
      rw [h2, h3]
      exact h
    | event e =>
      have hs := Web.handle_session env s e
      simp only [Web.step]
      cases e with
      | qr q =>
        simp only [] at hs
        split at hs <;> simp only [Prod.mk.injEq] at hs <;> rw [hs.2.1, hs.2.2] <;> simp
      | authenticated =>
        simp only [Prod.mk.injEq] at hs
        rw [hs.2.1]
        simp
      | ready =>
        simp only [Prod.mk.injEq] at hs
        rw [hs.2.1]
        simp
      | loading_screen p m =>
        simp only [Prod.mk.injEq] at hs
        rw [hs.2.1, hs.2.2]
        exact h
      | auth_failure m =>
        simp only [Prod.mk.injEq] at hs
        rw [hs.2.1]
        simp
      | disconnected r =>
        simp only [Prod.mk.injEq] at hs
        rw [hs.2.1]
        simp
      | initTimer =>
        simp only [Prod.mk.injEq] at hs
        rw [hs.2.1, hs.2.2]
        exact h
      | initFailed err =>
        simp only [Prod.mk.injEq] at hs
        rw [hs.2.1, hs.2.2]
        exact h

/-- C18, the whatsapp-web.js server at the failing input. After a pairing event that renders
and a pairing event whose rendering throws, `lastQrBase64` is null while `qrGenerated` is
still true: the `catch` block resets the artifact and not the flag. `GET /health` then
reports `qrAvailable: true` while `GET /qr` reports `qr: null`. -/
theorem web_flag_stays_after_failed_render :
    (Web.run (State.initial 0) Web.pairThenRenderFails).qrGenerated = true ∧
    (Web.run (State.initial 0) Web.pairThenRenderFails).lastQrBase64 = none ∧
    (getHealth Env.later (Web.run (State.initial 0) Web.pairThenRenderFails)).field
      "qrAvailable" = some (JVal.bool true) ∧
    (getQr Env.later (Web.run (State.initial 0) Web.pairThenRenderFails)).field "qr"
      = some JVal.null := by
  decide

/-! ## C15: number lookup -/

/-- C15, the whatsapp-web.js server at the failing input. The session is ready, the number
is present as the JSON number 15551234567, and the backend would report every address as
registered; yet the response is `500 Unable to verify number` and the backend is not
called, because the address computation `number.includes('@c.us')` of line 155 throws. The
claim asks for `200 registered: true`, which is what the Baileys server answers to the same
request. This is the defect shown under C10. -/
theorem web_check_numeric_number_fails :
    State.ready.connectionStatus = "ready" ∧
    Body.numeric.number.truthy = true ∧
    Web.checkNumber Env.sample State.ready Body.numeric
      = ⟨State.ready, [], unableToVerify⟩ ∧
    (Web.checkNumber Env.sample State.ready Body.numeric).response ≠ registered ∧
    Baileys.checkNumber Env.sample State.ready Body.numeric
      = ⟨State.ready, [Effect.onWhatsApp "15551234567@s.whatsapp.net"], registered⟩ := by
  decide

/-- What `/check-number` answers while ready, in either server. With `number` absent the
response is `400 Phone number is required` and the backend is not called. With `number`
present: when the address is computed, the backend is asked once about it, and the response
is `200 registered: true` when it reports the number registered,
`404 registered: false, Number does not have WhatsApp` when it reports it not registered (a
falsy result, or in the Baileys server an empty result list), and
`500 Unable to verify number` when the check throws; when the computation of the address
throws, the response is `500 Unable to verify number` and the backend is not called. No
case changes the state. -/
theorem check_number_result_mapping (env : Env) (s : State) (b : Body)
    (h : s.connectionStatus = "ready") :
    (b.number.truthy = false →
      Web.checkNumber env s b = ⟨s, [], numberRequired⟩ ∧
      Baileys.checkNumber env s b = ⟨s, [], numberRequired⟩) ∧
    (b.number.truthy = true → ∀ chatId : Json, Web.chatIdOf b.number = .ok chatId →
      (env.isRegisteredUser chatId = .ok true →
        Web.checkNumber env s b = ⟨s, [Effect.isRegisteredUser chatId], registered⟩) ∧
      (env.isRegisteredUser chatId = .ok false →
        Web.checkNumber env s b = ⟨s, [Effect.isRegisteredUser chatId], notRegistered⟩) ∧
      (∀ e : String, env.isRegisteredUser chatId = .error e →
        Web.checkNumber env s b = ⟨s, [Effect.isRegisteredUser chatId], unableToVerify⟩)) ∧
    (b.number.truthy = true → ∀ e : String, Web.chatIdOf b.number = .error e →
      Web.checkNumber env s b = ⟨s, [], unableToVerify⟩) ∧
    (b.number.truthy = true → ∀ jid : String, Baileys.jidOf b.number = .ok jid →
      (∀ l : List String, env.onWhatsApp jid = .ok (some l) → l ≠ [] →
        Baileys.checkNumber env s b = ⟨s, [Effect.onWhatsApp jid], registered⟩) ∧
      (env.onWhatsApp jid = .ok none ∨ env.onWhatsApp jid = .ok (some []) →
        Baileys.checkNumber env s b = ⟨s, [Effect.onWhatsApp jid], notRegistered⟩) ∧
      (∀ e : String, env.onWhatsApp jid = .error e →
        Baileys.checkNumber env s b = ⟨s, [Effect.onWhatsApp jid], unableToVerify⟩)) ∧
    (b.number.truthy = true → ∀ e : String, Baileys.jidOf b.number = .error e →
      Baileys.checkNumber env s b = ⟨s, [], unableToVerify⟩) := by
  refine ⟨?_, ?_, ?_, ?_, ?_⟩
  · intro hn
    simp [Web.checkNumber, Baileys.checkNumber, h, hn]
  · intro hn chatId hnum
    refine ⟨?_, ?_, ?_⟩
    · intro hr
      simp [Web.checkNumber, h, hn, hnum, hr]
    · intro hr
      simp [Web.checkNumber, h, hn, hnum, hr]
    · intro e hr
      simp [Web.checkNumber, h, hn, hnum, hr]
  · intro hn e hnum
    simp [Web.checkNumber, h, hn, hnum]
  · intro hn jid hnum
    refine ⟨?_, ?_, ?_⟩
    · intro l hr hl
      simp [Baileys.checkNumber, h, hn, hnum, hr, hl]
    · intro hr
      rcases hr with hr | hr <;> simp [Baileys.checkNumber, h, hn, hnum, hr]
    · intro e hr
      simp [Baileys.checkNumber, h, hn, hnum, hr]
  · intro hn e hnum
    simp [Baileys.checkNumber, h, hn, hnum]

/-- The lemma at a concrete input: the sample request, whose number is the string
`15551234567`, with a backend that reports it registered. -/
theorem check_number_result_mapping_witness :
    Web.checkNumber Env.sample State.ready Body.hi =
      ⟨State.ready, [Effect.isRegisteredUser (Json.str "15551234567@c.us")], registered⟩ ∧
    Baileys.checkNumber Env.sample State.ready Body.hi =
      ⟨State.ready, [Effect.onWhatsApp "15551234567@s.whatsapp.net"], registered⟩ := by
  have h := check_number_result_mapping Env.sample State.ready Body.hi (by decide)
  exact ⟨(h.2.1 (by decide) (Json.str "15551234567@c.us") rfl).1 rfl,
    (h.2.2.2.1 (by decide) "15551234567@s.whatsapp.net" rfl).1 ["jid"] rfl (by decide)⟩

/-! ## C16: the two servers on the HTTP surface -/

theorem sendGate_responds_without_number (s : State) (b : Body)
    (hn : b.number.truthy = false) : ∃ r, (sendGate s b).2 = some r := by
  unfold sendGate
  split
  · exact ⟨_, rfl⟩
  · split
    · exact ⟨_, rfl⟩
    · split
      · exact ⟨_, rfl⟩
      · simp [hn]

theorem send_agrees_when_gate_responds (env : Env) (s : State) (b : Body) (r : Response)
    (h : (sendGate s b).2 = some r) : Web.send env s b = Baileys.send env s b := by
  unfold Web.send Baileys.send
  rcases hg : sendGate s b with ⟨s1, r1⟩
  rw [hg] at h
  simp only at h
  subst h
  rfl

theorem send_agrees_of_dispatch (env : Env) (s : State) (b : Body)
    (h : (Web.dispatch env b).2 = (Baileys.dispatch env b).2) :
    (Web.send env s b).response = (Baileys.send env s b).response ∧
    (Web.send env s b).state = (Baileys.send env s b).state := by
  refine ⟨?_, by rw [web_send_state, baileys_send_state]⟩
  unfold Web.send Baileys.send
  rcases sendGate s b with ⟨s1, r1⟩
  cases r1 with
  | some r => rfl
  | none =>
    simp only [sendReply_response]
    rw [h]

theorem dispatch_agrees_of_alike (env : Env) (b : Body) (chatId : Json) (jid : String)
    (hW : Web.chatIdOf b.number = .ok chatId) (hB : Baileys.jidOf b.number = .ok jid)
    (ha : BackendsAlike env b chatId jid) :
    (Web.dispatch env b).2 = (Baileys.dispatch env b).2 := by
  obtain ⟨_, htext, herr, hdoc⟩ := ha
  simp only [Web.dispatch, Baileys.dispatch, hW, hB, Web.textStep, Baileys.textStep,
    Web.mediaStep, Baileys.documentStep]
  have hatt :
      (if b.pdfPath.truthy then
        (match Web.attachment env b.pdfPath b.caption with
          | .error e => (([] : List Effect), (Except.error e : Except String Unit))
          | .ok p => ([Effect.sendMessage chatId p], env.sendMessage chatId p))
        else ([], .ok ())).2 =
      (if b.pdfPath.truthy then
        (match Baileys.attachment env b.pdfPath b.caption with
          | .error e => (([] : List Effect), (Except.error e : Except String Unit))
          | .ok p => ([Effect.sendMessage (Json.str jid) p], env.sendMessage (Json.str jid) p))
        else ([], .ok ())).2 := by
    cases hpdf : b.pdfPath.truthy
    · simp
    · simp only [if_true]
      cases hWa : Web.attachment env b.pdfPath b.caption with
      | error e =>
        have hBa := (herr e).1 hWa
        simp [hBa]
      | ok pW =>
        cases hBa : Baileys.attachment env b.pdfPath b.caption with
        | error e =>
          have := (herr e).2 hBa
          rw [hWa] at this
          exact absurd this (by simp)
        | ok pB => simp [hdoc pW pB hWa hBa]
  cases hmsg : b.message.truthy
  · simpa using hatt
  · simp only [if_true]
    rw [← htext]
    cases env.sendMessage chatId (Payload.text b.message) with
    | error e => rfl
    | ok u => simpa using hatt

/-- C16, both servers at the failing input. The session is ready, the request `m2` carries
the number as the JSON number 15551234567, and every backend operation succeeds in the same
way for both servers. The whatsapp-web.js server answers `/send` with
`500 number.includes is not a function` and `/check-number` with
`500 Unable to verify number`; the Baileys server answers them with `200 success` and
`200 registered`. The claim, like the header of the Baileys file, asks for the same status
and body. This is the defect shown under C10. -/
theorem servers_differ_on_numeric_recipient :
    (Web.send Env.sample State.ready Body.numeric).response
      = sendFailed "number.includes is not a function" ∧
    (Baileys.send Env.sample State.ready Body.numeric).response = success ∧
    (Web.send Env.sample State.ready Body.numeric).response.status
      ≠ (Baileys.send Env.sample State.ready Body.numeric).response.status ∧
    (Web.checkNumber Env.sample State.ready Body.numeric).response = unableToVerify ∧
    (Baileys.checkNumber Env.sample State.ready Body.numeric).response = registered ∧
    (Web.checkNumber Env.sample State.ready Body.numeric).response.status
      ≠ (Baileys.checkNumber Env.sample State.ready Body.numeric).response.status := by
  decide

/-- Where the two servers agree. For every session state, environment and request body,
they return the same HTTP status and the same response body, and leave the same state (so
make the same change to `processedMessages`): for `GET /qr` and `GET /health`, always; for
`POST /check-number` and `POST /send`, whenever the status is not `ready`, or `number` is
absent, or both servers compute an address from `number` and the two backends succeed or
fail alike on the request (`BackendsAlike`). -/
theorem servers_agree_when_addresses_computed (env : Env) (s : State) (b : Body) :
    (Web.serve env s Request.getQr = Baileys.serve env s Request.getQr ∧
      Web.serve env s Request.getHealth = Baileys.serve env s Request.getHealth) ∧
    (s.connectionStatus ≠ "ready" ∨ b.number.truthy = false →
      Web.checkNumber env s b = Baileys.checkNumber env s b ∧
      Web.send env s b = Baileys.send env s b) ∧
    (∀ (chatId : Json) (jid : String), Web.chatIdOf b.number = .ok chatId →
      Baileys.jidOf b.number = .ok jid → BackendsAlike env b chatId jid →
      ((Web.checkNumber env s b).response = (Baileys.checkNumber env s b).response ∧
        (Web.checkNumber env s b).state = (Baileys.checkNumber env s b).state) ∧
      ((Web.send env s b).response = (Baileys.send env s b).response ∧
        (Web.send env s b).state = (Baileys.send env s b).state ∧
        (Web.send env s b).state.processedMessages
          = (Baileys.send env s b).state.processedMessages)) := by
  refine ⟨⟨rfl, rfl⟩, ?_, ?_⟩
  · intro h
    rcases h with h | h
    · refine ⟨by simp [Web.checkNumber, Baileys.checkNumber, h], ?_⟩
      exact send_agrees_when_gate_responds env s b notReady
        (by rw [sendGate_not_ready s b h])
    · refine ⟨?_, ?_⟩
      · by_cases hr : s.connectionStatus = "ready"
        · simp [Web.checkNumber, Baileys.checkNumber, hr, h]
        · simp [Web.checkNumber, Baileys.checkNumber, hr]
      · obtain ⟨r, hr⟩ := sendGate_responds_without_number s b h
        exact send_agrees_when_gate_responds env s b r hr
  · intro chatId jid hW hB ha
    have hsend := send_agrees_of_dispatch env s b
      (dispatch_agrees_of_alike env b chatId jid hW hB ha)
    refine ⟨⟨?_, by rw [web_checkNumber_state, baileys_checkNumber_state]⟩,
      hsend.1, hsend.2, by rw [hsend.2]⟩
    have hl := ha.1
    simp only [Web.lookup, Baileys.lookup] at hl
    simp only [Web.checkNumber, Baileys.checkNumber, hW, hB]
    by_cases hr : s.connectionStatus = "ready"
    · by_cases hn : b.number.truthy = true
      · simp only [hr, hn, ne_eq, not_true_eq_false, if_false, Bool.not_true,
          Bool.false_eq_true]
        cases hWr : env.isRegisteredUser chatId with
        | error e =>
          cases hBr : env.onWhatsApp jid with
          | error e2 => rfl
          | ok l => cases l <;> simp [hWr, hBr] at hl
        | ok r =>
          cases hBr : env.onWhatsApp jid with
          | error e2 => simp [hWr, hBr] at hl
          | ok l =>
            cases l with
            | none =>
              simp [hWr, hBr] at hl
              simp [hl]
            | some l =>
              simp [hWr, hBr] at hl
              cases l with
              | nil =>
                simp at hl
                simp [hl]
              | cons x xs =>
                simp at hl
                simp [hl]
      · simp [hr, hn]
    · simp [hr]

/-- The lemma at a concrete input: the sample request, whose number is a string, with
backends on which everything succeeds. Both servers answer `200 success` and record `m1`. -/
theorem servers_agree_when_addresses_computed_witness :
    (Web.send Env.sample State.ready Body.hi).response
      = (Baileys.send Env.sample State.ready Body.hi).response ∧
    (Web.send Env.sample State.ready Body.hi).state.processedMessages
      = (Baileys.send Env.sample State.ready Body.hi).state.processedMessages ∧
    (Web.checkNumber Env.sample State.ready Body.hi).response
      = (Baileys.checkNumber Env.sample State.ready Body.hi).response := by
  have ha : BackendsAlike Env.sample Body.hi (Json.str "15551234567@c.us")
      "15551234567@s.whatsapp.net" := by
    refine ⟨by decide, rfl, ?_, ?_⟩
    · intro e
      simp [Web.attachment, Baileys.attachment, Env.sample]
    · intro pW pB _ _
      rfl
  have h := (servers_agree_when_addresses_computed Env.sample State.ready Body.hi).2.2
    (Json.str "15551234567@c.us") "15551234567@s.whatsapp.net" rfl rfl ha
  exact ⟨h.2.1, h.2.2.2, h.1.1⟩

/-! ## C17: the processed-message record is append-only -/

theorem setAdd_of_not_mem (l : List Json) (x : Json) (h : x ∉ l) : setAdd l x = l ++ [x] := by
  simp [setAdd, h]

/-- The record after the synchronous head of `/send`: the messageId is appended when the
status is `ready` and the messageId is present and not yet in the record; otherwise the
record is unchanged. -/
theorem sendGate_processedMessages (s : State) (b : Body) :
    (s.connectionStatus = "ready" → b.messageId.truthy = true →
      b.messageId ∉ s.processedMessages →
      (sendGate s b).1.processedMessages = s.processedMessages ++ [b.messageId]) ∧
    ((sendGate s b).1.processedMessages ≠ s.processedMessages →
      s.connectionStatus = "ready" ∧ b.messageId.truthy = true ∧
      b.messageId ∉ s.processedMessages) := by
  constructor
  · intro h hm hp
    by_cases hn : b.number.truthy = true
    · rw [sendGate_proceed s b h hm hp hn]
      exact setAdd_of_not_mem _ _ hp
    · rw [sendGate_no_number s b h hm hp (by simpa using hn)]
      exact setAdd_of_not_mem _ _ hp
  · intro hne
    by_cases h : s.connectionStatus = "ready"
    · by_cases hm : b.messageId.truthy = true
      · by_cases hp : b.messageId ∈ s.processedMessages
        · rw [sendGate_duplicate s b h hm hp] at hne
          exact absurd rfl hne
        · exact ⟨h, hm, hp⟩
      · rw [sendGate_no_messageId s b h (by simpa using hm)] at hne
        exact absurd rfl hne
    · rw [sendGate_not_ready s b h] at hne
      exact absurd rfl hne

/-- C17. The processed-message record is append-only, in both servers. For every state and
every input (backend event or HTTP request), every element of `processedMessages` before
handling the input is an element after it; when handling the input changes the record, the
input is a `/send` handled while the status is `ready` whose messageId is present and not
yet in the record, and the record after is the record before with exactly that messageId
appended; and every such `/send` does append its messageId, whatever its other fields are
and whatever its sends do. -/
theorem processed_messages_append_only (loggedOut : Nat) (env : Env) (s : State) :
    (∀ i : Input Web.Event,
      (∀ y ∈ s.processedMessages, y ∈ (Web.step env s i).state.processedMessages) ∧
      ((Web.step env s i).state.processedMessages ≠ s.processedMessages →
        ∃ b : Body, i = Input.request (Request.send b) ∧ s.connectionStatus = "ready" ∧
          b.messageId.truthy = true ∧ b.messageId ∉ s.processedMessages ∧
          (Web.step env s i).state.processedMessages
            = s.processedMessages ++ [b.messageId])) ∧
    (∀ i : Input Baileys.Event,
      (∀ y ∈ s.processedMessages,
        y ∈ (Baileys.step loggedOut env s i).state.processedMessages) ∧
      ((Baileys.step loggedOut env s i).state.processedMessages ≠ s.processedMessages →
        ∃ b : Body, i = Input.request (Request.send b) ∧ s.connectionStatus = "ready" ∧
          b.messageId.truthy = true ∧ b.messageId ∉ s.processedMessages ∧
          (Baileys.step loggedOut env s i).state.processedMessages
            = s.processedMessages ++ [b.messageId])) ∧
    (∀ b : Body, s.connectionStatus = "ready" → b.messageId.truthy = true →
      b.messageId ∉ s.processedMessages →
      (Web.send env s b).state.processedMessages = s.processedMessages ++ [b.messageId] ∧
      (Baileys.send env s b).state.processedMessages
        = s.processedMessages ++ [b.messageId]) := by
  refine ⟨?_, ?_, ?_⟩
  · intro i
    refine ⟨fun y hy => web_step_mono env s i y hy, ?_⟩
    intro hne
    cases i with
    | event e =>
      simp only [Web.step, web_handle_processedMessages] at hne
      exact absurd rfl hne
    | request r =>
      cases r with
      | getQr => exact absurd rfl hne
      | getHealth => exact absurd rfl hne
      | checkNumber b =>
        simp only [Web.step, Web.serve, web_checkNumber_state] at hne
        exact absurd rfl hne
      | send b =>
        simp only [Web.step, Web.serve, web_send_state] at hne ⊢
        obtain ⟨h, hm, hp⟩ := (sendGate_processedMessages s b).2 hne
        exact ⟨b, rfl, h, hm, hp, (sendGate_processedMessages s b).1 h hm hp⟩
  · intro i
    refine ⟨fun y hy => baileys_step_mono loggedOut env s i y hy, ?_⟩
    intro hne
    cases i with
    | event e =>
      simp only [Baileys.step, baileys_handle_processedMessages] at hne
      exact absurd rfl hne
    | request r =>
      cases r with
      | getQr => exact absurd rfl hne
      | getHealth => exact absurd rfl hne
      | checkNumber b =>
        simp only [Baileys.step, Baileys.serve, baileys_checkNumber_state] at hne
        exact absurd rfl hne
      | send b =>
        simp only [Baileys.step, Baileys.serve, baileys_send_state] at hne ⊢
        obtain ⟨h, hm, hp⟩ := (sendGate_processedMessages s b).2 hne
        exact ⟨b, rfl, h, hm, hp, (sendGate_processedMessages s b).1 h hm hp⟩
  · intro b h hm hp
    rw [web_send_state, baileys_send_state]
    exact ⟨(sendGate_processedMessages s b).1 h hm hp,
      (sendGate_processedMessages s b).1 h hm hp⟩

/-! ## C19: a `/send` without recipient consumes its messageId -/

/-- A `/send` rejected for a missing recipient records its messageId, in both servers. For
a `/send` request handled while ready whose messageId is present and not yet processed and
whose `number` is absent: the response is `400 Phone number is required`, no effect is
performed (so no backend send), and the messageId is in `processedMessages` afterwards. So,
after any run of further events and requests, a later `/send` whose messageId is the same
value, handled while ready, whatever its number and other fields, is answered
`200 success, duplicate` and performs no effect. For an array or an object the same value
is the same object, which a later request never carries. -/
theorem send_without_number_consumes_messageId (loggedOut : Nat) (env : Env) (s : State)
    (b : Body) (h : s.connectionStatus = "ready") (hm : b.messageId.truthy = true)
    (hp : b.messageId ∉ s.processedMessages) (hn : b.number.truthy = false) :
    (Web.send env s b =
        ⟨{ s with processedMessages := s.processedMessages ++ [b.messageId] }, [],
          numberRequired⟩ ∧
      Baileys.send env s b =
        ⟨{ s with processedMessages := s.processedMessages ++ [b.messageId] }, [],
          numberRequired⟩) ∧
    (b.messageId ∈ (Web.send env s b).state.processedMessages ∧
      b.messageId ∈ (Baileys.send env s b).state.processedMessages) ∧
    (∀ (mid : List (Env × Input Web.Event)) (env2 : Env) (b2 : Body),
      b2.messageId = b.messageId →
      (Web.run (Web.send env s b).state mid).connectionStatus = "ready" →
      Web.send env2 (Web.run (Web.send env s b).state mid) b2 =
        ⟨Web.run (Web.send env s b).state mid, [], duplicate⟩) ∧
    (∀ (mid : List (Env × Input Baileys.Event)) (env2 : Env) (b2 : Body),
      b2.messageId = b.messageId →
      (Baileys.run loggedOut (Baileys.send env s b).state mid).connectionStatus = "ready" →
      Baileys.send env2 (Baileys.run loggedOut (Baileys.send env s b).state mid) b2 =
        ⟨Baileys.run loggedOut (Baileys.send env s b).state mid, [], duplicate⟩) := by
  have hg := sendGate_no_number s b h hm hp hn
  rw [setAdd_of_not_mem _ _ hp] at hg
  have hW : Web.send env s b =
      ⟨{ s with processedMessages := s.processedMessages ++ [b.messageId] }, [],
        numberRequired⟩ := by
    simp [Web.send, hg]
  have hB : Baileys.send env s b =
      ⟨{ s with processedMessages := s.processedMessages ++ [b.messageId] }, [],
        numberRequired⟩ := by
    simp [Baileys.send, hg]
  have hmW : b.messageId ∈ (Web.send env s b).state.processedMessages := by
    rw [hW]
    simp
  have hmB : b.messageId ∈ (Baileys.send env s b).state.processedMessages := by
    rw [hB]
    simp
  refine ⟨⟨hW, hB⟩, ⟨hmW, hmB⟩, ?_, ?_⟩
  · intro mid env2 b2 hid hr
    have hin : b2.messageId ∈ (Web.run (Web.send env s b).state mid).processedMessages := by
      rw [hid]
      exact web_run_mono mid _ _ hmW
    exact web_send_duplicate env2 _ b2 hr (by rw [hid]; exact hm) hin
  · intro mid env2 b2 hid hr
    have hin : b2.messageId ∈
        (Baileys.run loggedOut (Baileys.send env s b).state mid).processedMessages := by
      rw [hid]
      exact baileys_run_mono loggedOut mid _ _ hmB
    exact baileys_send_duplicate env2 _ b2 hr (by rw [hid]; exact hm) hin

/-- The lemma at a concrete input with the string messageId `m4`: the request arrives
without recipient and is rejected; the retry with a recipient is answered as a duplicate
and sends nothing. -/
theorem send_without_number_consumes_messageId_witness :
    (Web.send Env.sample State.ready Body.noNumber).response = numberRequired ∧
    (Web.send Env.sample State.ready Body.noNumber).effects = [] ∧
    Web.send Env.sample (Web.send Env.sample State.ready Body.noNumber).state Body.retry =
      ⟨(Web.send Env.sample State.ready Body.noNumber).state, [], duplicate⟩ ∧
    Baileys.send Env.sample (Baileys.send Env.sample State.ready Body.noNumber).state
        Body.retry =
      ⟨(Baileys.send Env.sample State.ready Body.noNumber).state, [], duplicate⟩ := by
  have h := send_without_number_consumes_messageId 401 Env.sample State.ready Body.noNumber
    (by decide) (by decide) (by decide) (by decide)
  refine ⟨by rw [h.1.1], by rw [h.1.1], ?_, ?_⟩
  · exact h.2.2.1 [] Env.sample Body.retry rfl (by decide)
  · exact h.2.2.2 [] Env.sample Body.retry rfl (by decide)


/-- C19, both servers at the failing input. The request whose messageId is the JSON array
`["m10"]` arrives without recipient while the session is ready: it is answered
`400 Phone number is required`, nothing is sent, and its messageId is recorded. The retry
carries a recipient and the same messageId text, parsed into a new array, which
`processedMessages.has` does not find: the retry is answered `200 success` without
`duplicate` and its text is sent. The claim asks for `200 success, duplicate` and no send.
This is the defect shown under C1. -/
theorem array_messageId_retry_is_sent :
    Body.listIdNoNumber.messageId.sameJson Body.listIdRetry.messageId = true ∧
    Web.send Env.sample State.ready Body.listIdNoNumber =
      ⟨{ State.ready with processedMessages := [Body.listIdNoNumber.messageId] }, [],
        numberRequired⟩ ∧
    Web.send Env.sample (Web.send Env.sample State.ready Body.listIdNoNumber).state
        Body.listIdRetry =
      ⟨{ State.ready with
          processedMessages := [Body.listIdNoNumber.messageId, Body.listIdRetry.messageId] },
        [Effect.sendMessage (Json.str "15551234567@c.us") (Payload.text (Json.str "hi"))],
        success⟩ ∧
    (Web.send Env.sample (Web.send Env.sample State.ready Body.listIdNoNumber).state
        Body.listIdRetry).response ≠ duplicate ∧
    Baileys.send Env.sample (Baileys.send Env.sample State.ready Body.listIdNoNumber).state
        Body.listIdRetry =
      ⟨{ State.ready with
          processedMessages := [Body.listIdNoNumber.messageId, Body.listIdRetry.messageId] },
        [Effect.sendMessage (Json.str "15551234567@s.whatsapp.net")
          (Payload.text (Json.str "hi"))],
        success⟩ := by
  decide

end WhatsApp
